import Mathlib

/-!
Verification development for the Polymarket copy-trading bot core
(`src/trading/trade-executor.ts`, `src/monitor/account-monitor.ts`,
`src/trading/copy-trading-monitor.ts`).

Numbers: the TypeScript code stores quantities, prices and values as decimal
strings and converts them with `parseFloat`; we model the parsed numbers as
rationals (ℚ), idealising IEEE doubles by exact arithmetic.  The JavaScript
literal `0.01` is modelled as `1/100` and `toFixed(4)` as rounding to four
decimal places.  Error-message strings produced by the executor are modelled
by the inductive `ErrMsg` (e.g. `ErrMsg.duplicateTrade` stands for the string
"Duplicate trade"); the numeric interpolations inside the messages are
presentation only and are not modelled.
-/

namespace CopyBot

/-- Trade side, the union of "buy" and "sell" used by the Trade model. -/
inductive Side where
  | buy
  | sell
deriving DecidableEq, Repr

/-- One normalized position (`Position` in `src/types/index.ts`).
`quantity`, `price` are the `parseFloat` images of the decimal strings.
`value` is the parsed `position.value` string and `valueNonempty` records
whether that string is nonempty (JavaScript truthiness of a string), which
the code consults both in the fallback parse (an empty value string parses
as zero) and in the ternary side computation inside `saveTrade`. -/
structure Position where
  id : String
  quantity : ℚ
  price : ℚ
  value : ℚ
  valueNonempty : Bool
deriving DecidableEq, Repr

/-- Model of the fallback parse of `position.value`: the empty string falls
back to the string "0", which parses to zero. -/
def Position.parsedValue (p : Position) : ℚ :=
  if p.valueNonempty then p.value else 0

/-- Model of the ternary side computation in `TradeExecutor.saveTrade`
(value truthy gives side "buy", else "sell"): a nonempty value string is
truthy, so the stored side is `buy` exactly when the value string is
nonempty. -/
def Position.storedSide (p : Position) : Side :=
  if p.valueNonempty then Side.buy else Side.sell

/-- A document of the `trades` collection (`src/models/Trade.ts`), restricted
to the fields that take part in duplicate detection: the compound unique index
is `(positionId, traderAddress, side)` and the dedup query additionally
filters on `success: true`. -/
structure TradeRec where
  positionId : String
  trader : String
  side : Side
  success : Bool
deriving DecidableEq, Repr

/-- The durable store: MongoDB connection state plus the `trades` collection. -/
structure DB where
  connected : Bool
  records : List TradeRec
deriving DecidableEq, Repr

/-- Insert honouring the unique compound index on
`(positionId, traderAddress, side)`: a second document with the same key
raises a duplicate-key error, which `saveTrade` swallows, so the collection
is unchanged in that case. -/
def DB.insertTrade (db : DB) (r : TradeRec) : DB :=
  if db.records.any (fun x =>
      x.positionId == r.positionId && x.trader == r.trader && decide (x.side = r.side)) then
    db
  else
    { db with records := db.records ++ [r] }

/-- The query body of `TradeExecutor.isDuplicateTrade`:
`TradeModel.findOne({positionId, traderAddress, side, success: true})`. -/
def hasSuccessRecord (db : DB) (positionId trader : String) (s : Side) : Bool :=
  db.records.any (fun x =>
    x.positionId == positionId && x.trader == trader && decide (x.side = s) && x.success)

/-- Model of `TradeExecutor.isDuplicateTrade`: returns `false` when the database is not
connected (and on query errors, which we do not model), otherwise whether a
success record with the given key exists. -/
def isDuplicateTrade (db : DB) (positionId trader : String) (s : Side) : Bool :=
  db.connected && hasSuccessRecord db positionId trader s

/-- Model of `TradeExecutor.saveTrade`: returns without writing when the database is
disconnected or the result is not a success; otherwise inserts a document
whose `side` is computed from the truthiness of `position.value`.  A failing
`trade.save()` is caught and logged (`persistOk = false` leaves the
collection unchanged); the caller never observes the failure. -/
def saveTrade (persistOk : Bool) (db : DB) (trader : String) (p : Position)
    (resSuccess : Bool) : DB :=
  if !db.connected || !resSuccess then db
  else if !persistOk then db
  else db.insertTrade
    { positionId := p.id, trader := trader, side := p.storedSide, success := resSuccess }

/-- The subset of `CopyTradingConfig` that the executor logic reads. -/
structure Config where
  dryRun : Bool
  positionSizeMultiplier : ℚ
  maxPositionSize : ℚ
  maxTradeSize : ℚ
  minTradeSize : ℚ
  maxRetryAttempts : ℕ
  retryDelay : ℕ
deriving DecidableEq, Repr

/-- Outcome of one `client.createAndPostOrder` submission: either an order id
or a thrown transport/boundary error with its message. -/
inductive BoundaryOutcome where
  | ok : String → BoundaryOutcome
  | fail : String → BoundaryOutcome
deriving DecidableEq, Repr

/-- Error detail carried by a `TradeExecutionResult`; each constructor models
one of the strings the executor assigns to `result.error`. -/
inductive ErrMsg where
  /-- the string "Duplicate trade" -/
  | duplicateTrade
  /-- the string "Position ID (token ID) is missing" (a thrown error) -/
  | missingTokenId
  /-- the "Trade size ... is below minimum ..." message -/
  | belowMin
  /-- the "Trade size ... exceeds maximum ..." message -/
  | aboveMax
  /-- the "Position size ... exceeds maximum ..." message -/
  | positionLimit
  /-- an error message thrown by the execution boundary -/
  | boundary : String → ErrMsg
deriving DecidableEq, Repr

/-- Model of `TradeExecutionResult` (`src/types/index.ts`), numeric strings parsed. -/
structure ExecResult where
  success : Bool
  orderId : Option String
  executedQuantity : Option ℚ
  executedPrice : Option ℚ
  error : Option ErrMsg
  retryCount : ℕ
  dryRun : Bool
deriving DecidableEq, Repr

/-- Model of `x.toFixed(4)` on the executed quantity/price: round to 4 decimals. -/
def roundQ4 (x : ℚ) : ℚ := (round (x * 10000) : ℤ) / 10000

/-- The result object as first constructed at the top of
`executeBuy` / `executeSell`, before any field is assigned. -/
def baseResult (cfg : Config) (rc : ℕ) : ExecResult :=
  { success := false, orderId := none, executedQuantity := none, executedPrice := none,
    error := none, retryCount := rc, dryRun := cfg.dryRun }

/-- Observable outcome of one `executeBuy`/`executeSell` call: the returned
result, the database afterwards, how many boundary submissions happened,
which delays were awaited between attempts, and the next boundary-oracle
index (submissions are numbered globally by the oracle). -/
structure ExecOutcome where
  result : ExecResult
  db : DB
  submissions : ℕ
  delays : List ℕ
  oracleIdx : ℕ
deriving DecidableEq, Repr

/-- Result of running the `try` block of one attempt: either an early return
(`done`) or a caught exception (`thrown msg submissions nextIdx`). -/
inductive StepRes where
  | done : ExecOutcome → StepRes
  | thrown : ErrMsg → ℕ → ℕ → StepRes
deriving DecidableEq, Repr

/-- The `try` block of `TradeExecutor.executeBuy`, for one attempt with retry
counter `rc` reading the boundary oracle at index `idx`:
duplicate check, token-id check (a throw), size validation (early returns),
dry-run synthesis, then the boundary submission. -/
def buyTryBody (cfg : Config) (oracle : ℕ → BoundaryOutcome) (persistOk : Bool)
    (trader : String) (p : Position) (db : DB) (idx rc : ℕ) : StepRes :=
  if isDuplicateTrade db p.id trader Side.buy then
    StepRes.done
      { result := { baseResult cfg rc with error := some ErrMsg.duplicateTrade },
        db := db, submissions := 0, delays := [], oracleIdx := idx }
  else if p.id = "" then
    StepRes.thrown ErrMsg.missingTokenId 0 idx
  else
    let tradeQuantity := p.quantity * cfg.positionSizeMultiplier
    let tradePrice := p.price
    let tradeValue := tradeQuantity * tradePrice
    if tradeValue < cfg.minTradeSize then
      StepRes.done
        { result := { baseResult cfg rc with error := some ErrMsg.belowMin },
          db := db, submissions := 0, delays := [], oracleIdx := idx }
    else if tradeValue > cfg.maxTradeSize then
      StepRes.done
        { result := { baseResult cfg rc with error := some ErrMsg.aboveMax },
          db := db, submissions := 0, delays := [], oracleIdx := idx }
    else if p.parsedValue * cfg.positionSizeMultiplier > cfg.maxPositionSize then
      StepRes.done
        { result := { baseResult cfg rc with error := some ErrMsg.positionLimit },
          db := db, submissions := 0, delays := [], oracleIdx := idx }
    else if cfg.dryRun then
      let r : ExecResult :=
        { baseResult cfg rc with
            success := true,
            executedQuantity := some (roundQ4 tradeQuantity),
            executedPrice := some (roundQ4 tradePrice) }
      StepRes.done
        { result := r, db := saveTrade persistOk db trader p true,
          submissions := 0, delays := [], oracleIdx := idx }
    else
      match oracle idx with
      | BoundaryOutcome.ok oid =>
        let r : ExecResult :=
          { baseResult cfg rc with
              success := true,
              orderId := some oid,
              executedQuantity := some (roundQ4 tradeQuantity),
              executedPrice := some (roundQ4 tradePrice) }
        StepRes.done
          { result := r, db := saveTrade persistOk db trader p true,
            submissions := 1, delays := [], oracleIdx := idx + 1 }
      | BoundaryOutcome.fail msg =>
        StepRes.thrown (ErrMsg.boundary msg) 1 (idx + 1)

/-- The `try` block of `TradeExecutor.executeSell`: token-id check, dry-run
synthesis, boundary submission.  No duplicate check and no size validation
appear in the source. -/
def sellTryBody (cfg : Config) (oracle : ℕ → BoundaryOutcome) (persistOk : Bool)
    (trader : String) (p : Position) (db : DB) (idx rc : ℕ) : StepRes :=
  if p.id = "" then
    StepRes.thrown ErrMsg.missingTokenId 0 idx
  else
    let tradeQuantity := p.quantity * cfg.positionSizeMultiplier
    let tradePrice := p.price
    if cfg.dryRun then
      let r : ExecResult :=
        { baseResult cfg rc with
            success := true,
            executedQuantity := some (roundQ4 tradeQuantity),
            executedPrice := some (roundQ4 tradePrice) }
      StepRes.done
        { result := r, db := saveTrade persistOk db trader p true,
          submissions := 0, delays := [], oracleIdx := idx }
    else
      match oracle idx with
      | BoundaryOutcome.ok oid =>
        let r : ExecResult :=
          { baseResult cfg rc with
              success := true,
              orderId := some oid,
              executedQuantity := some (roundQ4 tradeQuantity),
              executedPrice := some (roundQ4 tradePrice) }
        StepRes.done
          { result := r, db := saveTrade persistOk db trader p true,
            submissions := 1, delays := [], oracleIdx := idx + 1 }
      | BoundaryOutcome.fail msg =>
        StepRes.thrown (ErrMsg.boundary msg) 1 (idx + 1)

/-- The shared `catch` structure of `executeBuy`/`executeSell`: on a caught
error, while `retryCount < maxRetryAttempts`, wait `retryDelay` and re-enter
the whole function with `retryCount + 1`; once retries are exhausted, set
`result.error`, call `saveTrade` (a no-op for failures) and return.
`retriesLeft` is `maxRetryAttempts - retryCount`, so the guard
`retryCount < maxRetryAttempts` is exactly `retriesLeft > 0`. -/
def retryDriver (cfg : Config) (persistOk : Bool) (trader : String) (p : Position)
    (body : DB → ℕ → ℕ → StepRes) :
    ℕ → DB → ℕ → ℕ → ExecOutcome
  | 0, db, idx, rc =>
    match body db idx rc with
    | StepRes.done out => out
    | StepRes.thrown e subs idx2 =>
      { result := { baseResult cfg rc with error := some e },
        db := saveTrade persistOk db trader p false,
        submissions := subs, delays := [], oracleIdx := idx2 }
  | Nat.succ r, db, idx, rc =>
    match body db idx rc with
    | StepRes.done out => out
    | StepRes.thrown _ subs idx2 =>
      let out := retryDriver cfg persistOk trader p body r db idx2 (rc + 1)
      { out with submissions := subs + out.submissions,
                 delays := cfg.retryDelay :: out.delays }

/-- Model of `TradeExecutor.executeBuy(position, traderAddress)` (entered with the
default `retryCount = 0`), with the boundary modelled by `oracle` starting at
index `idx`. -/
def executeBuy (cfg : Config) (oracle : ℕ → BoundaryOutcome) (persistOk : Bool)
    (trader : String) (p : Position) (db : DB) (idx : ℕ) : ExecOutcome :=
  retryDriver cfg persistOk trader p (buyTryBody cfg oracle persistOk trader p)
    cfg.maxRetryAttempts db idx 0

/-- Model of `TradeExecutor.executeSell(position, traderAddress)` (entered with the
default `retryCount = 0`). -/
def executeSell (cfg : Config) (oracle : ℕ → BoundaryOutcome) (persistOk : Bool)
    (trader : String) (p : Position) (db : DB) (idx : ℕ) : ExecOutcome :=
  retryDriver cfg persistOk trader p (sellTryBody cfg oracle persistOk trader p)
    cfg.maxRetryAttempts db idx 0


/-! ## Change detection (`AccountMonitor.detectChanges`) -/

/-- A `TradingStatus` restricted to the fields `detectChanges` reads. -/
structure Status where
  openPositions : List Position
  totalValue : ℚ
deriving DecidableEq, Repr

/-- One `map.set(p.id, p)` step of `new Map(list.map(p => [p.id, p]))`:
a JavaScript `Map` keeps the original insertion position when a key is
written again, replacing its value; otherwise the entry is appended. -/
def insertPos (m : List (String × Position)) (p : Position) :
    List (String × Position) :=
  if m.any (fun e => e.1 == p.id) then
    m.map (fun e => if e.1 == p.id then (e.1, p) else e)
  else m ++ [(p.id, p)]

/-- Model of `new Map(list.map(p => [p.id, p]))` as an insertion-ordered
association list. -/
def mkMap (ps : List Position) : List (String × Position) :=
  ps.foldl insertPos []

/-- Model of `map.has(k)`. -/
def hasKey (m : List (String × Position)) (k : String) : Bool :=
  m.any (fun e => e.1 == k)

/-- Model of `map.get(k)`. -/
def getKey (m : List (String × Position)) (k : String) : Option Position :=
  (m.find? (fun e => e.1 == k)).map Prod.snd

/-- Model of `set.has(x)` on the per-trader executed-position set, as a
list of identifiers. -/
def hasId (l : List String) (x : String) : Bool :=
  l.any (fun y => y == x)

/-- The per-position significance guard at line 215 of
`account-monitor.ts`: `Math.abs(currentQty - lastQty) > Math.max(1, lastQty * 0.01)`. -/
def qtyChangeSignificant (lastQty currentQty : ℚ) : Bool :=
  decide (|currentQty - lastQty| > max 1 (lastQty * (1 / 100)))

/-- Model of `AccountMonitor.detectChanges(current, last)` for a present `last`
(the absent-`last` case returns `true` before this is reached):
position-count check, per-position new/changed check over the current map,
removed check over the last map, then the relative total-value check. -/
def detectChanges (current last : Status) : Bool :=
  if current.openPositions.length != last.openPositions.length then true
  else
    let currentPositionsMap := mkMap current.openPositions
    let lastPositionsMap := mkMap last.openPositions
    if currentPositionsMap.any (fun e =>
        match getKey lastPositionsMap e.1 with
        | none => true
        | some lastPos => qtyChangeSignificant lastPos.quantity e.2.quantity) then
      true
    else if lastPositionsMap.any (fun e => !hasKey currentPositionsMap e.1) then
      true
    else
      decide (|current.totalValue - last.totalValue| / max last.totalValue (1 / 100) > 1 / 100)

/-! ## Orchestrator (`CopyTradingMonitor.handleStatusUpdate`)

The claims are all per trader, and the orchestrator keeps one executed set,
one target-position map and per-database keying by trader address, so the
state below is the slice of `CopyTradingMonitor` owned by a single trader
`trader`, together with the shared counters and database. -/

/-- Per-trader orchestrator state plus shared counters and database. -/
structure OrchState where
  executed : List String
  lastPositions : List (String × Position)
  db : DB
  totalTradesExecuted : ℕ
  totalTradesFailed : ℕ
  oracleIdx : ℕ
deriving DecidableEq, Repr

/-- What the orchestrator observes of one executor call. -/
structure TraceEntry where
  side : Side
  posId : String
  success : Bool
  error : Option ErrMsg
  submissions : ℕ
deriving DecidableEq, Repr

/-- The buy loop of `handleStatusUpdate`: for each new position call
`executeBuy`; on success add the id to the executed set and bump
`totalTradesExecuted`, otherwise bump `totalTradesFailed`. -/
def processBuys (cfg : Config) (oracle : ℕ → BoundaryOutcome) (persistOk : Bool)
    (trader : String) : List Position → OrchState → OrchState × List TraceEntry
  | [], st => (st, [])
  | p :: rest, st =>
    let out := executeBuy cfg oracle persistOk trader p st.db st.oracleIdx
    let st1 : OrchState :=
      if out.result.success then
        { st with executed := st.executed ++ [p.id], db := out.db,
                  totalTradesExecuted := st.totalTradesExecuted + 1,
                  oracleIdx := out.oracleIdx }
      else
        { st with db := out.db, totalTradesFailed := st.totalTradesFailed + 1,
                  oracleIdx := out.oracleIdx }
    let next := processBuys cfg oracle persistOk trader rest st1
    (next.1,
      { side := Side.buy, posId := p.id, success := out.result.success,
        error := out.result.error, submissions := out.submissions } :: next.2)

/-- The sell loop of `handleStatusUpdate`: for each closed position call
`executeSell`; on success remove the id from the executed set and bump
`totalTradesExecuted`, otherwise bump `totalTradesFailed`. -/
def processSells (cfg : Config) (oracle : ℕ → BoundaryOutcome) (persistOk : Bool)
    (trader : String) : List Position → OrchState → OrchState × List TraceEntry
  | [], st => (st, [])
  | p :: rest, st =>
    let out := executeSell cfg oracle persistOk trader p st.db st.oracleIdx
    let st1 : OrchState :=
      if out.result.success then
        { st with executed := st.executed.erase p.id, db := out.db,
                  totalTradesExecuted := st.totalTradesExecuted + 1,
                  oracleIdx := out.oracleIdx }
      else
        { st with db := out.db, totalTradesFailed := st.totalTradesFailed + 1,
                  oracleIdx := out.oracleIdx }
    let next := processSells cfg oracle persistOk trader rest st1
    (next.1,
      { side := Side.sell, posId := p.id, success := out.result.success,
        error := out.result.error, submissions := out.submissions } :: next.2)

/-- Model of `CopyTradingMonitor.handleStatusUpdate(status, traderAddress)`:
build the current position map; new positions are those whose id is neither
a key of the stored target-position map nor in the executed set; closed
positions are stored entries whose id is absent from the current map and
present in the executed set; run the buys, then the sells, then replace the
stored target-position map by the current one. -/
def handleStatusUpdate (cfg : Config) (oracle : ℕ → BoundaryOutcome)
    (persistOk : Bool) (trader : String) (st : OrchState) (status : Status) :
    OrchState × List TraceEntry :=
  let currentPositions := mkMap status.openPositions
  let lastPositions := st.lastPositions
  let newPositions := (currentPositions.filter (fun e =>
      !hasKey lastPositions e.1 && !hasId st.executed e.1)).map Prod.snd
  let closedPositions := (lastPositions.filter (fun e =>
      !hasKey currentPositions e.1 && hasId st.executed e.1)).map Prod.snd
  let afterBuys := processBuys cfg oracle persistOk trader newPositions st
  let afterSells := processSells cfg oracle persistOk trader closedPositions afterBuys.1
  ({ afterSells.1 with lastPositions := currentPositions }, afterBuys.2 ++ afterSells.2)

/-- A sequence of status updates delivered for one trader, processed in
order; returns the final state and the concatenated trace. -/
def runUpdates (cfg : Config) (oracle : ℕ → BoundaryOutcome) (persistOk : Bool)
    (trader : String) : OrchState → List Status → OrchState × List TraceEntry
  | st, [] => (st, [])
  | st, s :: rest =>
    let step := handleStatusUpdate cfg oracle persistOk trader st s
    let next := runUpdates cfg oracle persistOk trader step.1 rest
    (next.1, step.2 ++ next.2)

/-- The per-trader state as initialised in the `CopyTradingMonitor`
constructor: empty executed set, empty target-position map, zero counters. -/
def initState (db : DB) : OrchState :=
  { executed := [], lastPositions := [], db := db,
    totalTradesExecuted := 0, totalTradesFailed := 0, oracleIdx := 0 }

/-- Number of successful buy executions recorded in a trace for one id. -/
def buySuccessCount (tr : List TraceEntry) (pid : String) : ℕ :=
  tr.countP (fun e => decide (e.side = Side.buy) && e.success && e.posId == pid)

/-- Whether a trace holds a successful buy execution for `pid`. -/
def hasBuySuccess (tr : List TraceEntry) (pid : String) : Bool :=
  tr.any (fun e => decide (e.side = Side.buy) && e.success && e.posId == pid)

/-- Whether a trace holds any sell execution attempt for `pid`. -/
def hasSellEntry (tr : List TraceEntry) (pid : String) : Bool :=
  tr.any (fun e => decide (e.side = Side.sell) && e.posId == pid)

/-- Whether a trace holds any buy execution attempt for `pid`. -/
def hasBuyEntry (tr : List TraceEntry) (pid : String) : Bool :=
  tr.any (fun e => decide (e.side = Side.buy) && e.posId == pid)

/-- Every document of the `trades` collection has `success = true`: the only
writer, `saveTrade`, returns early for non-success results, so this is the
shape of any store the bot has produced. -/
def AllSuccess (db : DB) : Prop := ∀ r ∈ db.records, r.success = true

/-- Componentwise relation between try-block results that ignores the
database component (used to show the returned result does not depend on
persistence success). -/
def StepRel : StepRes → StepRes → Prop
  | StepRes.done o1, StepRes.done o2 =>
      o1.result = o2.result ∧ o1.submissions = o2.submissions ∧
      o1.delays = o2.delays ∧ o1.oracleIdx = o2.oracleIdx
  | StepRes.thrown e1 s1 i1, StepRes.thrown e2 s2 i2 => e1 = e2 ∧ s1 = s2 ∧ i1 = i2
  | _, _ => False

/-! ## Store lemmas -/

theorem saveTrade_not_success (persistOk : Bool) (db : DB) (trader : String)
    (p : Position) : saveTrade persistOk db trader p false = db := by
  simp [saveTrade]

theorem insertTrade_connected (db : DB) (r : TradeRec) :
    (db.insertTrade r).connected = db.connected := by
  unfold DB.insertTrade
  split <;> rfl

theorem insertTrade_mono (db : DB) (r x : TradeRec) (hx : x ∈ db.records) :
    x ∈ (db.insertTrade r).records := by
  unfold DB.insertTrade
  split
  · exact hx
  · exact List.mem_append_left _ hx

theorem insertTrade_allSuccess (db : DB) (r : TradeRec) (h : AllSuccess db)
    (hr : r.success = true) : AllSuccess (db.insertTrade r) := by
  unfold DB.insertTrade
  split
  · exact h
  · intro x hx
    rcases List.mem_append.mp hx with hx | hx
    · exact h x hx
    · simp only [List.mem_singleton] at hx
      subst hx
      exact hr

theorem saveTrade_connected (persistOk : Bool) (db : DB) (trader : String)
    (p : Position) (b : Bool) :
    (saveTrade persistOk db trader p b).connected = db.connected := by
  unfold saveTrade
  split
  · rfl
  · split
    · rfl
    · exact insertTrade_connected _ _

theorem saveTrade_mono (persistOk : Bool) (db : DB) (trader : String)
    (p : Position) (b : Bool) (x : TradeRec) (hx : x ∈ db.records) :
    x ∈ (saveTrade persistOk db trader p b).records := by
  unfold saveTrade
  split
  · exact hx
  · split
    · exact hx
    · exact insertTrade_mono _ _ _ hx

theorem saveTrade_allSuccess (persistOk : Bool) (db : DB) (trader : String)
    (p : Position) (b : Bool) (h : AllSuccess db) :
    AllSuccess (saveTrade persistOk db trader p b) := by
  unfold saveTrade
  split
  · exact h
  · split
    · exact h
    · have : b = true := by
        rcases b with _ | _
        · simp at *
        · rfl
      subst this
      exact insertTrade_allSuccess _ _ h rfl

theorem hasSuccessRecord_mono (db db2 : DB) (pid trader : String) (s : Side)
    (hsub : ∀ x ∈ db.records, x ∈ db2.records)
    (h : hasSuccessRecord db pid trader s = true) :
    hasSuccessRecord db2 pid trader s = true := by
  unfold hasSuccessRecord at h ⊢
  rcases List.any_eq_true.mp h with ⟨x, hx, hp⟩
  exact List.any_eq_true.mpr ⟨x, hsub x hx, hp⟩

theorem insertTrade_hasSuccessRecord (db : DB) (pid trader : String) (s : Side)
    (hall : AllSuccess db) :
    hasSuccessRecord
      (db.insertTrade { positionId := pid, trader := trader, side := s, success := true })
      pid trader s = true := by
  unfold DB.insertTrade
  split
  · rename_i hmem
    rcases List.any_eq_true.mp hmem with ⟨x, hx, hp⟩
    unfold hasSuccessRecord
    refine List.any_eq_true.mpr ⟨x, hx, ?_⟩
    simp only [Bool.and_eq_true, beq_iff_eq, decide_eq_true_eq] at hp ⊢
    exact ⟨hp, hall x hx⟩
  · unfold hasSuccessRecord
    refine List.any_eq_true.mpr ⟨_, List.mem_append_right _ (List.mem_singleton.mpr rfl), ?_⟩
    simp

theorem saveTrade_success_hasRecord (persistOk : Bool) (db : DB) (trader : String)
    (p : Position) (hc : db.connected = true) (hp : persistOk = true)
    (hall : AllSuccess db) :
    hasSuccessRecord (saveTrade persistOk db trader p true) p.id trader p.storedSide = true := by
  unfold saveTrade
  rw [hc, hp]
  simpa using insertTrade_hasSuccessRecord db p.id trader p.storedSide hall

/-! ## Retry-driver lemmas -/

theorem retryDriver_done (cfg : Config) (persistOk : Bool) (trader : String)
    (p : Position) (body : DB → ℕ → ℕ → StepRes) (fuel : ℕ) (db : DB) (idx rc : ℕ)
    (out : ExecOutcome) (h : body db idx rc = StepRes.done out) :
    retryDriver cfg persistOk trader p body fuel db idx rc = out := by
  cases fuel <;> rw [retryDriver, h]

theorem retryDriver_db (cfg : Config) (persistOk : Bool) (trader : String)
    (p : Position) (body : DB → ℕ → ℕ → StepRes) (db : DB) (Q : DB → Prop)
    (hq : Q db)
    (hbody : ∀ idx rc out, body db idx rc = StepRes.done out → Q out.db) :
    ∀ fuel idx rc, Q (retryDriver cfg persistOk trader p body fuel db idx rc).db := by
  intro fuel
  induction fuel with
  | zero =>
    intro idx rc
    rcases hb : body db idx rc with out | ⟨e, subs, idx2⟩
    · rw [retryDriver, hb]
      exact hbody idx rc _ hb
    · rw [retryDriver, hb]
      simpa [saveTrade_not_success] using hq
  | succ r ih =>
    intro idx rc
    rcases hb : body db idx rc with out | ⟨e, subs, idx2⟩
    · rw [retryDriver, hb]
      exact hbody idx rc _ hb
    · rw [retryDriver, hb]
      exact ih idx2 (rc + 1)

theorem retryDriver_success (cfg : Config) (persistOk : Bool) (trader : String)
    (p : Position) (body : DB → ℕ → ℕ → StepRes) (db : DB)
    (P : DB → ExecResult → Prop)
    (hbody : ∀ idx rc out, body db idx rc = StepRes.done out →
      out.result.success = true → P out.db out.result) :
    ∀ fuel idx rc,
      (retryDriver cfg persistOk trader p body fuel db idx rc).result.success = true →
      P (retryDriver cfg persistOk trader p body fuel db idx rc).db
        (retryDriver cfg persistOk trader p body fuel db idx rc).result := by
  intro fuel
  induction fuel with
  | zero =>
    intro idx rc h
    rcases hb : body db idx rc with out | ⟨e, subs, idx2⟩
    · rw [retryDriver, hb] at h ⊢
      exact hbody idx rc _ hb h
    · rw [retryDriver, hb] at h
      simp [baseResult] at h
  | succ r ih =>
    intro idx rc h
    rcases hb : body db idx rc with out | ⟨e, subs, idx2⟩
    · rw [retryDriver, hb] at h ⊢
      exact hbody idx rc _ hb h
    · rw [retryDriver, hb] at h ⊢
      exact ih idx2 (rc + 1) h

theorem retryDriver_fail_db (cfg : Config) (persistOk : Bool) (trader : String)
    (p : Position) (body : DB → ℕ → ℕ → StepRes) (db : DB)
    (hbody : ∀ idx rc out, body db idx rc = StepRes.done out →
      out.result.success = false → out.db = db) :
    ∀ fuel idx rc,
      (retryDriver cfg persistOk trader p body fuel db idx rc).result.success = false →
      (retryDriver cfg persistOk trader p body fuel db idx rc).db = db := by
  intro fuel
  induction fuel with
  | zero =>
    intro idx rc h
    rcases hb : body db idx rc with out | ⟨e, subs, idx2⟩
    · rw [retryDriver, hb] at h ⊢
      exact hbody idx rc _ hb h
    · rw [retryDriver, hb]
      exact saveTrade_not_success _ _ _ _
  | succ r ih =>
    intro idx rc h
    rcases hb : body db idx rc with out | ⟨e, subs, idx2⟩
    · rw [retryDriver, hb] at h ⊢
      exact hbody idx rc _ hb h
    · rw [retryDriver, hb] at h ⊢
      exact ih idx2 (rc + 1) h

theorem retryDriver_allFail (cfg : Config) (persistOk : Bool) (trader : String)
    (p : Position) (body : DB → ℕ → ℕ → StepRes) (db : DB) (E : ℕ → ErrMsg)
    (hbody : ∀ idx rc, body db idx rc = StepRes.thrown (E idx) 1 (idx + 1)) :
    ∀ fuel idx rc,
      retryDriver cfg persistOk trader p body fuel db idx rc =
        { result := { baseResult cfg (rc + fuel) with error := some (E (idx + fuel)) },
          db := db, submissions := fuel + 1,
          delays := List.replicate fuel cfg.retryDelay, oracleIdx := idx + fuel + 1 } := by
  intro fuel
  induction fuel with
  | zero =>
    intro idx rc
    rw [retryDriver, hbody idx rc]
    simp [saveTrade_not_success]
  | succ r ih =>
    intro idx rc
    rw [retryDriver, hbody idx rc]
    simp only [ih (idx + 1) (rc + 1)]
    have h1 : idx + 1 + r = idx + (r + 1) := by omega
    have h2 : rc + 1 + r = rc + (r + 1) := by omega
    simp [h1, h2, List.replicate_succ]
    omega

theorem retryDriver_rel (cfg : Config) (persistOk1 persistOk2 : Bool) (trader : String)
    (p : Position) (body1 body2 : DB → ℕ → ℕ → StepRes) (db : DB)
    (h : ∀ idx rc, StepRel (body1 db idx rc) (body2 db idx rc)) :
    ∀ fuel idx rc,
      (retryDriver cfg persistOk1 trader p body1 fuel db idx rc).result =
        (retryDriver cfg persistOk2 trader p body2 fuel db idx rc).result ∧
      (retryDriver cfg persistOk1 trader p body1 fuel db idx rc).submissions =
        (retryDriver cfg persistOk2 trader p body2 fuel db idx rc).submissions ∧
      (retryDriver cfg persistOk1 trader p body1 fuel db idx rc).delays =
        (retryDriver cfg persistOk2 trader p body2 fuel db idx rc).delays ∧
      (retryDriver cfg persistOk1 trader p body1 fuel db idx rc).oracleIdx =
        (retryDriver cfg persistOk2 trader p body2 fuel db idx rc).oracleIdx := by
  intro fuel
  induction fuel with
  | zero =>
    intro idx rc
    have hrel := h idx rc
    rcases hb1 : body1 db idx rc with o1 | ⟨e1, s1, i1⟩ <;>
      rcases hb2 : body2 db idx rc with o2 | ⟨e2, s2, i2⟩ <;>
      rw [hb1, hb2] at hrel <;> simp only [StepRel] at hrel
    · simp only [retryDriver, hb1, hb2]
      exact hrel
    · rcases hrel with ⟨he, hs, hi⟩
      subst he
      subst hs
      subst hi
      simp [retryDriver, hb1, hb2]
  | succ r ih =>
    intro idx rc
    have hrel := h idx rc
    rcases hb1 : body1 db idx rc with o1 | ⟨e1, s1, i1⟩ <;>
      rcases hb2 : body2 db idx rc with o2 | ⟨e2, s2, i2⟩ <;>
      rw [hb1, hb2] at hrel <;> simp only [StepRel] at hrel
    · simp only [retryDriver, hb1, hb2]
      exact hrel
    · rcases hrel with ⟨he, hs, hi⟩
      subst he
      subst hs
      subst hi
      rcases ih i1 (rc + 1) with ⟨h1, h2, h3, h4⟩
      simp [retryDriver, hb1, hb2, h1, h2, h3, h4]

/-! ## Try-block case analysis -/

theorem buyTryBody_done (cfg : Config) (oracle : ℕ → BoundaryOutcome) (persistOk : Bool)
    (trader : String) (p : Position) (db : DB) (idx rc : ℕ) (out : ExecOutcome)
    (h : buyTryBody cfg oracle persistOk trader p db idx rc = StepRes.done out) :
    (out.result.success = false ∧ out.db = db) ∨
    (out.result.success = true ∧ out.db = saveTrade persistOk db trader p true ∧
      isDuplicateTrade db p.id trader Side.buy = false ∧
      out.result.executedQuantity = some (roundQ4 (p.quantity * cfg.positionSizeMultiplier)) ∧
      out.result.executedPrice = some (roundQ4 p.price)) := by
  simp only [buyTryBody] at h
  split at h
  · cases h
    exact Or.inl ⟨rfl, rfl⟩
  · rename_i hdup
    split at h
    · cases h
    · split at h
      · cases h
        exact Or.inl ⟨rfl, rfl⟩
      · split at h
        · cases h
          exact Or.inl ⟨rfl, rfl⟩
        · split at h
          · cases h
            exact Or.inl ⟨rfl, rfl⟩
          · split at h
            · cases h
              exact Or.inr ⟨rfl, rfl, eq_false_of_ne_true hdup, rfl, rfl⟩
            · split at h
              · cases h
                exact Or.inr ⟨rfl, rfl, eq_false_of_ne_true hdup, rfl, rfl⟩
              · cases h

theorem sellTryBody_done (cfg : Config) (oracle : ℕ → BoundaryOutcome) (persistOk : Bool)
    (trader : String) (p : Position) (db : DB) (idx rc : ℕ) (out : ExecOutcome)
    (h : sellTryBody cfg oracle persistOk trader p db idx rc = StepRes.done out) :
    out.result.success = true ∧ out.db = saveTrade persistOk db trader p true := by
  simp only [sellTryBody] at h
  split at h
  · cases h
  · split at h
    · cases h
      exact ⟨rfl, rfl⟩
    · split at h
      · cases h
        exact ⟨rfl, rfl⟩
      · cases h

/-! ## Executor-level lemmas -/

theorem executeBuy_dbInv (cfg : Config) (oracle : ℕ → BoundaryOutcome) (persistOk : Bool)
    (trader : String) (p : Position) (db : DB) (idx : ℕ) :
    (executeBuy cfg oracle persistOk trader p db idx).db.connected = db.connected ∧
    (∀ x ∈ db.records, x ∈ (executeBuy cfg oracle persistOk trader p db idx).db.records) ∧
    (AllSuccess db → AllSuccess (executeBuy cfg oracle persistOk trader p db idx).db) := by
  unfold executeBuy
  refine retryDriver_db cfg persistOk trader p _ db
    (fun d => d.connected = db.connected ∧ (∀ x ∈ db.records, x ∈ d.records) ∧
      (AllSuccess db → AllSuccess d)) ⟨rfl, fun x hx => hx, fun h => h⟩ ?_ _ idx 0
  intro idx1 rc out hdone
  rcases buyTryBody_done _ _ _ _ _ _ _ _ _ hdone with ⟨_, hdb⟩ | ⟨_, hdb, _, _, _⟩
  · rw [hdb]
    exact ⟨rfl, fun x hx => hx, fun h => h⟩
  · rw [hdb]
    exact ⟨saveTrade_connected _ _ _ _ _, fun x hx => saveTrade_mono _ _ _ _ _ _ hx,
      fun h => saveTrade_allSuccess _ _ _ _ _ h⟩

theorem executeSell_dbInv (cfg : Config) (oracle : ℕ → BoundaryOutcome) (persistOk : Bool)
    (trader : String) (p : Position) (db : DB) (idx : ℕ) :
    (executeSell cfg oracle persistOk trader p db idx).db.connected = db.connected ∧
    (∀ x ∈ db.records, x ∈ (executeSell cfg oracle persistOk trader p db idx).db.records) ∧
    (AllSuccess db → AllSuccess (executeSell cfg oracle persistOk trader p db idx).db) := by
  unfold executeSell
  refine retryDriver_db cfg persistOk trader p _ db
    (fun d => d.connected = db.connected ∧ (∀ x ∈ db.records, x ∈ d.records) ∧
      (AllSuccess db → AllSuccess d)) ⟨rfl, fun x hx => hx, fun h => h⟩ ?_ _ idx 0
  intro idx1 rc out hdone
  rcases sellTryBody_done _ _ _ _ _ _ _ _ _ hdone with ⟨_, hdb⟩
  rw [hdb]
  exact ⟨saveTrade_connected _ _ _ _ _, fun x hx => saveTrade_mono _ _ _ _ _ _ hx,
    fun h => saveTrade_allSuccess _ _ _ _ _ h⟩

theorem executeBuy_success_not_dup (cfg : Config) (oracle : ℕ → BoundaryOutcome)
    (persistOk : Bool) (trader : String) (p : Position) (db : DB) (idx : ℕ)
    (h : (executeBuy cfg oracle persistOk trader p db idx).result.success = true) :
    isDuplicateTrade db p.id trader Side.buy = false := by
  unfold executeBuy at h
  exact retryDriver_success cfg persistOk trader p _ db
    (fun _ _ => isDuplicateTrade db p.id trader Side.buy = false)
    (fun idx1 rc out hdone hs => by
      rcases buyTryBody_done _ _ _ _ _ _ _ _ _ hdone with ⟨hf, _⟩ | ⟨_, _, hd, _, _⟩
      · rw [hf] at hs
        cases hs
      · exact hd)
    cfg.maxRetryAttempts idx 0 h

theorem executeBuy_success_record (cfg : Config) (oracle : ℕ → BoundaryOutcome)
    (persistOk : Bool) (trader : String) (p : Position) (db : DB) (idx : ℕ)
    (hc : db.connected = true) (hpk : persistOk = true)
    (hv : p.valueNonempty = true) (hall : AllSuccess db)
    (h : (executeBuy cfg oracle persistOk trader p db idx).result.success = true) :
    hasSuccessRecord (executeBuy cfg oracle persistOk trader p db idx).db
      p.id trader Side.buy = true := by
  unfold executeBuy at h ⊢
  refine retryDriver_success cfg persistOk trader p _ db
    (fun d _ => hasSuccessRecord d p.id trader Side.buy = true) ?_
    cfg.maxRetryAttempts idx 0 h
  intro idx1 rc out hdone hs
  rcases buyTryBody_done _ _ _ _ _ _ _ _ _ hdone with ⟨hf, _⟩ | ⟨_, hdb, _, _, _⟩
  · rw [hf] at hs
    cases hs
  · rw [hdb]
    have hrec := saveTrade_success_hasRecord persistOk db trader p hc hpk hall
    have hss : p.storedSide = Side.buy := by simp [Position.storedSide, hv]
    rw [hss] at hrec
    exact hrec

theorem executeBuy_fail_db (cfg : Config) (oracle : ℕ → BoundaryOutcome) (persistOk : Bool)
    (trader : String) (p : Position) (db : DB) (idx : ℕ)
    (h : (executeBuy cfg oracle persistOk trader p db idx).result.success = false) :
    (executeBuy cfg oracle persistOk trader p db idx).db = db := by
  unfold executeBuy at h ⊢
  refine retryDriver_fail_db cfg persistOk trader p _ db ?_ cfg.maxRetryAttempts idx 0 h
  intro idx1 rc out hdone hs
  rcases buyTryBody_done _ _ _ _ _ _ _ _ _ hdone with ⟨_, hdb⟩ | ⟨ht, _, _, _, _⟩
  · exact hdb
  · rw [ht] at hs
    cases hs

theorem executeSell_fail_db (cfg : Config) (oracle : ℕ → BoundaryOutcome) (persistOk : Bool)
    (trader : String) (p : Position) (db : DB) (idx : ℕ)
    (h : (executeSell cfg oracle persistOk trader p db idx).result.success = false) :
    (executeSell cfg oracle persistOk trader p db idx).db = db := by
  unfold executeSell at h ⊢
  refine retryDriver_fail_db cfg persistOk trader p _ db ?_ cfg.maxRetryAttempts idx 0 h
  intro idx1 rc out hdone hs
  rcases sellTryBody_done _ _ _ _ _ _ _ _ _ hdone with ⟨ht, _⟩
  rw [ht] at hs
  cases hs

theorem executeBuy_dup (cfg : Config) (oracle : ℕ → BoundaryOutcome) (persistOk : Bool)
    (trader : String) (p : Position) (db : DB) (idx : ℕ)
    (hdup : isDuplicateTrade db p.id trader Side.buy = true) :
    executeBuy cfg oracle persistOk trader p db idx =
      { result := { baseResult cfg 0 with error := some ErrMsg.duplicateTrade },
        db := db, submissions := 0, delays := [], oracleIdx := idx } := by
  unfold executeBuy
  refine retryDriver_done _ _ _ _ _ _ _ _ _ _ ?_
  simp [buyTryBody, hdup]

theorem executeBuy_allFail (cfg : Config) (oracle : ℕ → BoundaryOutcome) (persistOk : Bool)
    (trader : String) (p : Position) (db : DB) (idx : ℕ) (msgs : ℕ → String)
    (hor : ∀ k, oracle k = BoundaryOutcome.fail (msgs k))
    (hdup : isDuplicateTrade db p.id trader Side.buy = false)
    (hid : p.id ≠ "")
    (hmin : ¬ p.quantity * cfg.positionSizeMultiplier * p.price < cfg.minTradeSize)
    (hmax : ¬ p.quantity * cfg.positionSizeMultiplier * p.price > cfg.maxTradeSize)
    (hpos : ¬ p.parsedValue * cfg.positionSizeMultiplier > cfg.maxPositionSize)
    (hdr : cfg.dryRun = false) :
    executeBuy cfg oracle persistOk trader p db idx =
      { result := { baseResult cfg cfg.maxRetryAttempts with
          error := some (ErrMsg.boundary (msgs (idx + cfg.maxRetryAttempts))) },
        db := db, submissions := cfg.maxRetryAttempts + 1,
        delays := List.replicate cfg.maxRetryAttempts cfg.retryDelay,
        oracleIdx := idx + cfg.maxRetryAttempts + 1 } := by
  unfold executeBuy
  have hbody : ∀ i rc, buyTryBody cfg oracle persistOk trader p db i rc =
      StepRes.thrown (ErrMsg.boundary (msgs i)) 1 (i + 1) := by
    intro i rc
    simp [buyTryBody, hdup, hid, hmin, hmax, hpos, hdr, hor i]
  have hall := retryDriver_allFail cfg persistOk trader p _ db
    (fun k => ErrMsg.boundary (msgs k)) hbody cfg.maxRetryAttempts idx 0
  simpa using hall

theorem executeSell_allFail (cfg : Config) (oracle : ℕ → BoundaryOutcome) (persistOk : Bool)
    (trader : String) (p : Position) (db : DB) (idx : ℕ) (msgs : ℕ → String)
    (hor : ∀ k, oracle k = BoundaryOutcome.fail (msgs k))
    (hid : p.id ≠ "") (hdr : cfg.dryRun = false) :
    executeSell cfg oracle persistOk trader p db idx =
      { result := { baseResult cfg cfg.maxRetryAttempts with
          error := some (ErrMsg.boundary (msgs (idx + cfg.maxRetryAttempts))) },
        db := db, submissions := cfg.maxRetryAttempts + 1,
        delays := List.replicate cfg.maxRetryAttempts cfg.retryDelay,
        oracleIdx := idx + cfg.maxRetryAttempts + 1 } := by
  unfold executeSell
  have hbody : ∀ i rc, sellTryBody cfg oracle persistOk trader p db i rc =
      StepRes.thrown (ErrMsg.boundary (msgs i)) 1 (i + 1) := by
    intro i rc
    simp [sellTryBody, hid, hdr, hor i]
  have hall := retryDriver_allFail cfg persistOk trader p _ db
    (fun k => ErrMsg.boundary (msgs k)) hbody cfg.maxRetryAttempts idx 0
  simpa using hall

theorem executeSell_submit_ok (cfg : Config) (oracle : ℕ → BoundaryOutcome) (persistOk : Bool)
    (trader : String) (p : Position) (db : DB) (idx : ℕ) (oid : String)
    (hid : p.id ≠ "") (hdr : cfg.dryRun = false)
    (hok : oracle idx = BoundaryOutcome.ok oid) :
    executeSell cfg oracle persistOk trader p db idx =
      { result :=
          { baseResult cfg 0 with
              success := true,
              orderId := some oid,
              executedQuantity := some (roundQ4 (p.quantity * cfg.positionSizeMultiplier)),
              executedPrice := some (roundQ4 p.price) },
        db := saveTrade persistOk db trader p true,
        submissions := 1, delays := [], oracleIdx := idx + 1 } := by
  unfold executeSell
  refine retryDriver_done _ _ _ _ _ _ _ _ _ _ ?_
  simp [sellTryBody, hid, hdr, hok]

theorem executeBuy_success_fields (cfg : Config) (oracle : ℕ → BoundaryOutcome)
    (persistOk : Bool) (trader : String) (p : Position) (db : DB) (idx : ℕ)
    (h : (executeBuy cfg oracle persistOk trader p db idx).result.success = true) :
    (executeBuy cfg oracle persistOk trader p db idx).result.executedQuantity =
      some (roundQ4 (p.quantity * cfg.positionSizeMultiplier)) ∧
    (executeBuy cfg oracle persistOk trader p db idx).result.executedPrice =
      some (roundQ4 p.price) := by
  unfold executeBuy at h ⊢
  refine retryDriver_success cfg persistOk trader p _ db
    (fun _ res => res.executedQuantity = some (roundQ4 (p.quantity * cfg.positionSizeMultiplier)) ∧
      res.executedPrice = some (roundQ4 p.price)) ?_ cfg.maxRetryAttempts idx 0 h
  intro idx1 rc out hdone hs
  rcases buyTryBody_done _ _ _ _ _ _ _ _ _ hdone with ⟨hf, _⟩ | ⟨_, _, _, hq, hp2⟩
  · rw [hf] at hs
    cases hs
  · exact ⟨hq, hp2⟩

theorem executeSell_success_record (cfg : Config) (oracle : ℕ → BoundaryOutcome)
    (persistOk : Bool) (trader : String) (p : Position) (db : DB) (idx : ℕ)
    (hc : db.connected = true) (hpk : persistOk = true) (hall : AllSuccess db)
    (h : (executeSell cfg oracle persistOk trader p db idx).result.success = true) :
    hasSuccessRecord (executeSell cfg oracle persistOk trader p db idx).db
      p.id trader p.storedSide = true := by
  unfold executeSell at h ⊢
  refine retryDriver_success cfg persistOk trader p _ db
    (fun d _ => hasSuccessRecord d p.id trader p.storedSide = true) ?_
    cfg.maxRetryAttempts idx 0 h
  intro idx1 rc out hdone hs
  rcases sellTryBody_done _ _ _ _ _ _ _ _ _ hdone with ⟨_, hdb⟩
  rw [hdb]
  exact saveTrade_success_hasRecord persistOk db trader p hc hpk hall

theorem executeBuy_success_recordSide (cfg : Config) (oracle : ℕ → BoundaryOutcome)
    (persistOk : Bool) (trader : String) (p : Position) (db : DB) (idx : ℕ)
    (hc : db.connected = true) (hpk : persistOk = true) (hall : AllSuccess db)
    (h : (executeBuy cfg oracle persistOk trader p db idx).result.success = true) :
    hasSuccessRecord (executeBuy cfg oracle persistOk trader p db idx).db
      p.id trader p.storedSide = true := by
  unfold executeBuy at h ⊢
  refine retryDriver_success cfg persistOk trader p _ db
    (fun d _ => hasSuccessRecord d p.id trader p.storedSide = true) ?_
    cfg.maxRetryAttempts idx 0 h
  intro idx1 rc out hdone hs
  rcases buyTryBody_done _ _ _ _ _ _ _ _ _ hdone with ⟨hf, _⟩ | ⟨_, hdb, _, _, _⟩
  · rw [hf] at hs
    cases hs
  · rw [hdb]
    exact saveTrade_success_hasRecord persistOk db trader p hc hpk hall

theorem StepRel_refl (s : StepRes) : StepRel s s := by
  cases s <;> simp [StepRel]

theorem buyTryBody_rel (cfg : Config) (oracle : ℕ → BoundaryOutcome)
    (persistOk1 persistOk2 : Bool) (trader : String) (p : Position) (db : DB) (idx rc : ℕ) :
    StepRel (buyTryBody cfg oracle persistOk1 trader p db idx rc)
      (buyTryBody cfg oracle persistOk2 trader p db idx rc) := by
  rcases ho : oracle idx with oid | m <;>
    by_cases h1 : isDuplicateTrade db p.id trader Side.buy = true <;>
    by_cases h2 : p.id = "" <;>
    by_cases h3 : p.quantity * cfg.positionSizeMultiplier * p.price < cfg.minTradeSize <;>
    by_cases h4 : p.quantity * cfg.positionSizeMultiplier * p.price > cfg.maxTradeSize <;>
    by_cases h5 : p.parsedValue * cfg.positionSizeMultiplier > cfg.maxPositionSize <;>
    by_cases h6 : cfg.dryRun = true <;>
    simp [buyTryBody, h1, h2, h3, h4, h5, h6, ho, StepRel] <;>
    exact StepRel_refl _

theorem sellTryBody_rel (cfg : Config) (oracle : ℕ → BoundaryOutcome)
    (persistOk1 persistOk2 : Bool) (trader : String) (p : Position) (db : DB) (idx rc : ℕ) :
    StepRel (sellTryBody cfg oracle persistOk1 trader p db idx rc)
      (sellTryBody cfg oracle persistOk2 trader p db idx rc) := by
  rcases ho : oracle idx with oid | m <;>
    by_cases h2 : p.id = "" <;>
    by_cases h6 : cfg.dryRun = true <;>
    simp [sellTryBody, h2, h6, ho, StepRel]

theorem retryDriver_congr (cfg1 cfg2 : Config) (persistOk : Bool) (trader : String)
    (p : Position) (body1 body2 : DB → ℕ → ℕ → StepRes) (db : DB)
    (hdelay : cfg1.retryDelay = cfg2.retryDelay) (hdry : cfg1.dryRun = cfg2.dryRun)
    (hb : ∀ idx rc, body1 db idx rc = body2 db idx rc) :
    ∀ fuel idx rc, retryDriver cfg1 persistOk trader p body1 fuel db idx rc =
      retryDriver cfg2 persistOk trader p body2 fuel db idx rc := by
  have hbase : ∀ rc, baseResult cfg1 rc = baseResult cfg2 rc := by
    intro rc
    simp [baseResult, hdry]
  intro fuel
  induction fuel with
  | zero =>
    intro idx rc
    rcases hb1 : body1 db idx rc with o1 | ⟨e1, s1, i1⟩ <;>
      rw [retryDriver, retryDriver, hb1, ← hb idx rc, hb1] <;>
      simp [hbase]
  | succ r ih =>
    intro idx rc
    rcases hb1 : body1 db idx rc with o1 | ⟨e1, s1, i1⟩ <;>
      rw [retryDriver, retryDriver, hb1, ← hb idx rc, hb1] <;>
      simp [hbase, hdelay, ih]

/-! ## Change-detector lemmas and claims C6, C7 -/

theorem detectChanges_singleton (pCur pLast : Position) (tvCur tvLast : ℚ)
    (hid : pCur.id = pLast.id) :
    detectChanges { openPositions := [pCur], totalValue := tvCur }
        { openPositions := [pLast], totalValue := tvLast } =
      (qtyChangeSignificant pLast.quantity pCur.quantity ||
        decide (|tvCur - tvLast| / max tvLast (1 / 100) > 1 / 100)) := by
  simp [detectChanges, mkMap, insertPos, getKey, hasKey, hid]

/-- Claim C6, counterexample.  The claim asserts that a change of
`oldQty * 0.01 + ε` is always signalled; with `oldQty = 50`, `newQty = 50.6`
the change is `50 * 0.01 + 0.1`, yet the detector reports no change because
the absolute floor `max(1, 0.5) = 1` is not exceeded. -/
theorem c6_counterexample :
    |(253 / 5 : ℚ) - 50| = 50 * (1 / 100) + 1 / 10 ∧
    detectChanges
      { openPositions :=
          [{ id := "a", quantity := 253 / 5, price := 1, value := 253 / 5,
             valueNonempty := true }],
        totalValue := 10 }
      { openPositions :=
          [{ id := "a", quantity := 50, price := 1, value := 50, valueNonempty := true }],
        totalValue := 10 } = false := by
  constructor
  · norm_num
  · norm_num [detectChanges, mkMap, insertPos, getKey, hasKey, qtyChangeSignificant]
    norm_num [abs_sub_comm, abs_le]

/-- Claim C6, amended.  For a position present in both snapshots (modulo the
aggregate-value check, neutralised by equal totals), a quantity change is
signalled iff `|newQty - oldQty| > max 1 (oldQty * 0.01)`; a change of exactly
`oldQty * 0.01` is never signalled; and a change exceeding `oldQty * 0.01`
is signalled provided `oldQty ≥ 100` (so that the 1-unit absolute floor is
dominated by the relative threshold). -/
theorem c6_resize_threshold (pCur pLast : Position) (tv : ℚ)
    (hid : pCur.id = pLast.id) :
    (detectChanges { openPositions := [pCur], totalValue := tv }
        { openPositions := [pLast], totalValue := tv } = true ↔
      |pCur.quantity - pLast.quantity| > max 1 (pLast.quantity * (1 / 100))) ∧
    (|pCur.quantity - pLast.quantity| = pLast.quantity * (1 / 100) →
      detectChanges { openPositions := [pCur], totalValue := tv }
        { openPositions := [pLast], totalValue := tv } = false) ∧
    ((100 : ℚ) ≤ pLast.quantity →
      |pCur.quantity - pLast.quantity| > pLast.quantity * (1 / 100) →
      detectChanges { openPositions := [pCur], totalValue := tv }
        { openPositions := [pLast], totalValue := tv } = true) := by
  have hdc := detectChanges_singleton pCur pLast tv tv hid
  have hv : (decide (|tv - tv| / max tv (1 / 100) > 1 / 100)) = false := by
    simp only [sub_self, abs_zero, zero_div, decide_eq_false_iff_not]
    norm_num
  rw [hv, Bool.or_false] at hdc
  rw [hdc]
  refine ⟨?_, ?_, ?_⟩
  · simp [qtyChangeSignificant]
  · intro heq
    simp only [qtyChangeSignificant, decide_eq_false_iff_not, not_lt, heq]
    exact le_max_right 1 _
  · intro h100 hgt
    have hmax : max 1 (pLast.quantity * (1 / 100)) = pLast.quantity * (1 / 100) := by
      refine max_eq_right ?_
      nlinarith
    simp only [qtyChangeSignificant, hmax, decide_eq_true_eq]
    exact hgt

/-- Claim C7, counterexample.  Two statuses with identical position sets and
identical per-position quantities, but aggregate values 100 and 200: the
detector reports a change (the relative total-value check fires), whereas
the claim says aggregate drift alone never signals one. -/
theorem c7_counterexample :
    detectChanges
      { openPositions :=
          [{ id := "a", quantity := 5, price := 1, value := 5, valueNonempty := true }],
        totalValue := 200 }
      { openPositions :=
          [{ id := "a", quantity := 5, price := 1, value := 5, valueNonempty := true }],
        totalValue := 100 } = true := by
  norm_num [detectChanges, mkMap, insertPos, getKey, hasKey, qtyChangeSignificant]

/-- Claim C7, amended.  When the two statuses have equally many positions,
every current position matches a stored one with a sub-threshold quantity
difference and every stored id is still present, the detector reports a
change exactly when the relative aggregate-value drift
`|curTotal - lastTotal| / max lastTotal 0.01` exceeds `0.01`; aggregate
drift is thus a signalling condition of its own, not merely informational. -/
theorem c7_value_drift (cur last : Status)
    (hlen : cur.openPositions.length = last.openPositions.length)
    (hsub : ∀ e ∈ mkMap cur.openPositions, ∃ lp,
      getKey (mkMap last.openPositions) e.1 = some lp ∧
      qtyChangeSignificant lp.quantity e.2.quantity = false)
    (hkeys : ∀ e ∈ mkMap last.openPositions, hasKey (mkMap cur.openPositions) e.1 = true) :
    detectChanges cur last = true ↔
      |cur.totalValue - last.totalValue| / max last.totalValue (1 / 100) > 1 / 100 := by
  have ha1 : (mkMap cur.openPositions).any (fun e =>
      match getKey (mkMap last.openPositions) e.1 with
      | none => true
      | some lastPos => qtyChangeSignificant lastPos.quantity e.2.quantity) = false := by
    refine List.any_eq_false.mpr ?_
    intro e he
    rcases hsub e he with ⟨lp, hg, hq⟩
    simp [hg, hq]
  have ha2 : (mkMap last.openPositions).any
      (fun e => !hasKey (mkMap cur.openPositions) e.1) = false := by
    refine List.any_eq_false.mpr ?_
    intro e he
    simp [hkeys e he]
  simp only [detectChanges, hlen, bne_self_eq_false, Bool.false_eq_true, if_false,
    ha1, ha2, decide_eq_true_eq]

/-- Witness for `c6_resize_threshold` at `oldQty = 100`, `newQty = 102`. -/
theorem c6_resize_threshold_witness :
    (detectChanges
        { openPositions :=
            [{ id := "a", quantity := 102, price := 1, value := 102, valueNonempty := true }],
          totalValue := 7 }
        { openPositions :=
            [{ id := "a", quantity := 100, price := 1, value := 100, valueNonempty := true }],
          totalValue := 7 } = true ↔
      |(102 : ℚ) - 100| > max 1 ((100 : ℚ) * (1 / 100))) ∧
    (|(102 : ℚ) - 100| = (100 : ℚ) * (1 / 100) →
      detectChanges
        { openPositions :=
            [{ id := "a", quantity := 102, price := 1, value := 102, valueNonempty := true }],
          totalValue := 7 }
        { openPositions :=
            [{ id := "a", quantity := 100, price := 1, value := 100, valueNonempty := true }],
          totalValue := 7 } = false) ∧
    ((100 : ℚ) ≤ 100 →
      |(102 : ℚ) - 100| > (100 : ℚ) * (1 / 100) →
      detectChanges
        { openPositions :=
            [{ id := "a", quantity := 102, price := 1, value := 102, valueNonempty := true }],
          totalValue := 7 }
        { openPositions :=
            [{ id := "a", quantity := 100, price := 1, value := 100, valueNonempty := true }],
          totalValue := 7 } = true) :=
  c6_resize_threshold
    { id := "a", quantity := 102, price := 1, value := 102, valueNonempty := true }
    { id := "a", quantity := 100, price := 1, value := 100, valueNonempty := true } 7 rfl

/-- Witness for `c7_value_drift` on a pair of singleton statuses with equal
positions and equal totals. -/
theorem c7_value_drift_witness :
    detectChanges
        { openPositions :=
            [{ id := "a", quantity := 5, price := 1, value := 5, valueNonempty := true }],
          totalValue := 100 }
        { openPositions :=
            [{ id := "a", quantity := 5, price := 1, value := 5, valueNonempty := true }],
          totalValue := 100 } = true ↔
      |(100 : ℚ) - 100| / max (100 : ℚ) (1 / 100) > 1 / 100 :=
  c7_value_drift
    { openPositions :=
        [{ id := "a", quantity := 5, price := 1, value := 5, valueNonempty := true }],
      totalValue := 100 }
    { openPositions :=
        [{ id := "a", quantity := 5, price := 1, value := 5, valueNonempty := true }],
      totalValue := 100 }
    rfl
    (by
      intro e he
      simp [mkMap, insertPos] at he
      subst he
      refine ⟨{ id := "a", quantity := 5, price := 1, value := 5, valueNonempty := true }, ?_, ?_⟩
      · simp [mkMap, insertPos, getKey]
      · simp [qtyChangeSignificant])
    (by
      intro e he
      simp [mkMap, insertPos] at he
      subst he
      simp [mkMap, insertPos, hasKey])

/-! ## Claims C2, C3, C4, C8 (executor level) -/

/-- Claim C2, counterexample.  The durable store is connected and holds a
success record for ("a", "t", sell), yet `executeSell` still submits to the
boundary (one submission) and returns a plain success, not a
Skipped-Duplicate: the sell side performs no deduplication check. -/
theorem c2_counterexample :
    hasSuccessRecord
      { connected := true,
        records := [{ positionId := "a", trader := "t", side := Side.sell, success := true }] }
      "a" "t" Side.sell = true ∧
    (executeSell
      { dryRun := false, positionSizeMultiplier := 1, maxPositionSize := 10000,
        maxTradeSize := 5000, minTradeSize := 1, maxRetryAttempts := 3, retryDelay := 1000 }
      (fun _ => BoundaryOutcome.ok "oid") true "t"
      { id := "a", quantity := 2, price := 1, value := 2, valueNonempty := true }
      { connected := true,
        records := [{ positionId := "a", trader := "t", side := Side.sell, success := true }] }
      0).submissions = 1 ∧
    (executeSell
      { dryRun := false, positionSizeMultiplier := 1, maxPositionSize := 10000,
        maxTradeSize := 5000, minTradeSize := 1, maxRetryAttempts := 3, retryDelay := 1000 }
      (fun _ => BoundaryOutcome.ok "oid") true "t"
      { id := "a", quantity := 2, price := 1, value := 2, valueNonempty := true }
      { connected := true,
        records := [{ positionId := "a", trader := "t", side := Side.sell, success := true }] }
      0).result.success = true := by
  have h := executeSell_submit_ok
    { dryRun := false, positionSizeMultiplier := 1, maxPositionSize := 10000,
      maxTradeSize := 5000, minTradeSize := 1, maxRetryAttempts := 3, retryDelay := 1000 }
    (fun _ => BoundaryOutcome.ok "oid") true "t"
    { id := "a", quantity := 2, price := 1, value := 2, valueNonempty := true }
    { connected := true,
      records := [{ positionId := "a", trader := "t", side := Side.sell, success := true }] }
    0 "oid" (by decide) rfl rfl
  refine ⟨by decide, ?_, ?_⟩ <;> rw [h]

/-- Claim C2, amended.  Only the buy side short-circuits on the durable
store: with a success record keyed ("id", trader, buy) visible,
`executeBuy` immediately returns a failed result carrying the
"Duplicate trade" error, with zero boundary submissions, no delays and the
store untouched; `executeSell` performs no duplicate check — whatever the
store holds, an available boundary order is submitted. -/
theorem c2_dedup_short_circuit (cfg : Config) (oracle : ℕ → BoundaryOutcome)
    (persistOk : Bool) (trader : String) (p : Position) (db : DB) (idx : ℕ) :
    (isDuplicateTrade db p.id trader Side.buy = true →
      executeBuy cfg oracle persistOk trader p db idx =
        { result := { baseResult cfg 0 with error := some ErrMsg.duplicateTrade },
          db := db, submissions := 0, delays := [], oracleIdx := idx }) ∧
    (∀ oid, p.id ≠ "" → cfg.dryRun = false → oracle idx = BoundaryOutcome.ok oid →
      (executeSell cfg oracle persistOk trader p db idx).submissions = 1 ∧
      (executeSell cfg oracle persistOk trader p db idx).result.success = true) := by
  constructor
  · exact executeBuy_dup cfg oracle persistOk trader p db idx
  · intro oid hid hdr hok
    rw [executeSell_submit_ok cfg oracle persistOk trader p db idx oid hid hdr hok]
    exact ⟨rfl, rfl⟩

/-- Witness for `c2_dedup_short_circuit`, with a stored buy success for the
buy half and an accepting boundary for the sell half. -/
theorem c2_dedup_short_circuit_witness :
    (isDuplicateTrade
        { connected := true,
          records := [{ positionId := "b", trader := "t", side := Side.buy, success := true }] }
        "b" "t" Side.buy = true →
      executeBuy
        { dryRun := false, positionSizeMultiplier := 1, maxPositionSize := 10000,
          maxTradeSize := 5000, minTradeSize := 1, maxRetryAttempts := 3, retryDelay := 1000 }
        (fun _ => BoundaryOutcome.ok "oid") true "t"
        { id := "b", quantity := 2, price := 1, value := 2, valueNonempty := true }
        { connected := true,
          records := [{ positionId := "b", trader := "t", side := Side.buy, success := true }] }
        0 =
        { result :=
            { baseResult
                { dryRun := false, positionSizeMultiplier := 1, maxPositionSize := 10000,
                  maxTradeSize := 5000, minTradeSize := 1, maxRetryAttempts := 3,
                  retryDelay := 1000 } 0 with
              error := some ErrMsg.duplicateTrade },
          db :=
            { connected := true,
              records := [{ positionId := "b", trader := "t", side := Side.buy, success := true }] },
          submissions := 0, delays := [], oracleIdx := 0 }) ∧
    (∀ oid, ("b" : String) ≠ "" →
      ({ dryRun := false, positionSizeMultiplier := 1, maxPositionSize := 10000,
         maxTradeSize := 5000, minTradeSize := 1, maxRetryAttempts := 3,
         retryDelay := 1000 } : Config).dryRun = false →
      (fun _ => BoundaryOutcome.ok "oid") 0 = BoundaryOutcome.ok oid →
      (executeSell
        { dryRun := false, positionSizeMultiplier := 1, maxPositionSize := 10000,
          maxTradeSize := 5000, minTradeSize := 1, maxRetryAttempts := 3, retryDelay := 1000 }
        (fun _ => BoundaryOutcome.ok "oid") true "t"
        { id := "b", quantity := 2, price := 1, value := 2, valueNonempty := true }
        { connected := true,
          records := [{ positionId := "b", trader := "t", side := Side.buy, success := true }] }
        0).submissions = 1 ∧
      (executeSell
        { dryRun := false, positionSizeMultiplier := 1, maxPositionSize := 10000,
          maxTradeSize := 5000, minTradeSize := 1, maxRetryAttempts := 3, retryDelay := 1000 }
        (fun _ => BoundaryOutcome.ok "oid") true "t"
        { id := "b", quantity := 2, price := 1, value := 2, valueNonempty := true }
        { connected := true,
          records := [{ positionId := "b", trader := "t", side := Side.buy, success := true }] }
        0).result.success = true) :=
  c2_dedup_short_circuit
    { dryRun := false, positionSizeMultiplier := 1, maxPositionSize := 10000,
      maxTradeSize := 5000, minTradeSize := 1, maxRetryAttempts := 3, retryDelay := 1000 }
    (fun _ => BoundaryOutcome.ok "oid") true "t"
    { id := "b", quantity := 2, price := 1, value := 2, valueNonempty := true }
    { connected := true,
      records := [{ positionId := "b", trader := "t", side := Side.buy, success := true }] }
    0

/-- Claim C3, confirmed.  With a boundary that throws on every submission, a
non-dry-run, non-duplicate buy with a present token id and passing
validation performs exactly `maxRetryAttempts + 1` submissions, waits
`retryDelay` between consecutive attempts (`maxRetryAttempts` waits), and
returns `success = false` carrying the error of the last attempt; the sell
side behaves identically. -/
theorem c3_retry_bound (cfg : Config) (oracle : ℕ → BoundaryOutcome) (persistOk : Bool)
    (trader : String) (p : Position) (db : DB) (msgs : ℕ → String)
    (hor : ∀ k, oracle k = BoundaryOutcome.fail (msgs k))
    (hdup : isDuplicateTrade db p.id trader Side.buy = false)
    (hid : p.id ≠ "")
    (hmin : ¬ p.quantity * cfg.positionSizeMultiplier * p.price < cfg.minTradeSize)
    (hmax : ¬ p.quantity * cfg.positionSizeMultiplier * p.price > cfg.maxTradeSize)
    (hpos : ¬ p.parsedValue * cfg.positionSizeMultiplier > cfg.maxPositionSize)
    (hdr : cfg.dryRun = false) :
    ((executeBuy cfg oracle persistOk trader p db 0).submissions = cfg.maxRetryAttempts + 1 ∧
     (executeBuy cfg oracle persistOk trader p db 0).delays =
       List.replicate cfg.maxRetryAttempts cfg.retryDelay ∧
     (executeBuy cfg oracle persistOk trader p db 0).result.success = false ∧
     (executeBuy cfg oracle persistOk trader p db 0).result.error =
       some (ErrMsg.boundary (msgs cfg.maxRetryAttempts))) ∧
    ((executeSell cfg oracle persistOk trader p db 0).submissions = cfg.maxRetryAttempts + 1 ∧
     (executeSell cfg oracle persistOk trader p db 0).delays =
       List.replicate cfg.maxRetryAttempts cfg.retryDelay ∧
     (executeSell cfg oracle persistOk trader p db 0).result.success = false ∧
     (executeSell cfg oracle persistOk trader p db 0).result.error =
       some (ErrMsg.boundary (msgs cfg.maxRetryAttempts))) := by
  have hb := executeBuy_allFail cfg oracle persistOk trader p db 0 msgs
    hor hdup hid hmin hmax hpos hdr
  have hs := executeSell_allFail cfg oracle persistOk trader p db 0 msgs hor hid hdr
  rw [hb, hs]
  refine ⟨⟨rfl, rfl, rfl, ?_⟩, rfl, rfl, rfl, ?_⟩ <;> simp

/-- Witness for `c3_retry_bound`: `maxRetryAttempts = 2`, an always-throwing
boundary, a disconnected store and a passing validation. -/
theorem c3_retry_bound_witness :
    ((executeBuy
        { dryRun := false, positionSizeMultiplier := 1, maxPositionSize := 10000,
          maxTradeSize := 5000, minTradeSize := 1, maxRetryAttempts := 2, retryDelay := 500 }
        (fun _ => BoundaryOutcome.fail "boom") true "t"
        { id := "a", quantity := 10, price := 1, value := 10, valueNonempty := true }
        { connected := false, records := [] } 0).submissions = 3 ∧
     (executeBuy
        { dryRun := false, positionSizeMultiplier := 1, maxPositionSize := 10000,
          maxTradeSize := 5000, minTradeSize := 1, maxRetryAttempts := 2, retryDelay := 500 }
        (fun _ => BoundaryOutcome.fail "boom") true "t"
        { id := "a", quantity := 10, price := 1, value := 10, valueNonempty := true }
        { connected := false, records := [] } 0).delays = List.replicate 2 500 ∧
     (executeBuy
        { dryRun := false, positionSizeMultiplier := 1, maxPositionSize := 10000,
          maxTradeSize := 5000, minTradeSize := 1, maxRetryAttempts := 2, retryDelay := 500 }
        (fun _ => BoundaryOutcome.fail "boom") true "t"
        { id := "a", quantity := 10, price := 1, value := 10, valueNonempty := true }
        { connected := false, records := [] } 0).result.success = false ∧
     (executeBuy
        { dryRun := false, positionSizeMultiplier := 1, maxPositionSize := 10000,
          maxTradeSize := 5000, minTradeSize := 1, maxRetryAttempts := 2, retryDelay := 500 }
        (fun _ => BoundaryOutcome.fail "boom") true "t"
        { id := "a", quantity := 10, price := 1, value := 10, valueNonempty := true }
        { connected := false, records := [] } 0).result.error =
       some (ErrMsg.boundary "boom")) ∧
    ((executeSell
        { dryRun := false, positionSizeMultiplier := 1, maxPositionSize := 10000,
          maxTradeSize := 5000, minTradeSize := 1, maxRetryAttempts := 2, retryDelay := 500 }
        (fun _ => BoundaryOutcome.fail "boom") true "t"
        { id := "a", quantity := 10, price := 1, value := 10, valueNonempty := true }
        { connected := false, records := [] } 0).submissions = 3 ∧
     (executeSell
        { dryRun := false, positionSizeMultiplier := 1, maxPositionSize := 10000,
          maxTradeSize := 5000, minTradeSize := 1, maxRetryAttempts := 2, retryDelay := 500 }
        (fun _ => BoundaryOutcome.fail "boom") true "t"
        { id := "a", quantity := 10, price := 1, value := 10, valueNonempty := true }
        { connected := false, records := [] } 0).delays = List.replicate 2 500 ∧
     (executeSell
        { dryRun := false, positionSizeMultiplier := 1, maxPositionSize := 10000,
          maxTradeSize := 5000, minTradeSize := 1, maxRetryAttempts := 2, retryDelay := 500 }
        (fun _ => BoundaryOutcome.fail "boom") true "t"
        { id := "a", quantity := 10, price := 1, value := 10, valueNonempty := true }
        { connected := false, records := [] } 0).result.success = false ∧
     (executeSell
        { dryRun := false, positionSizeMultiplier := 1, maxPositionSize := 10000,
          maxTradeSize := 5000, minTradeSize := 1, maxRetryAttempts := 2, retryDelay := 500 }
        (fun _ => BoundaryOutcome.fail "boom") true "t"
        { id := "a", quantity := 10, price := 1, value := 10, valueNonempty := true }
        { connected := false, records := [] } 0).result.error =
       some (ErrMsg.boundary "boom")) :=
  c3_retry_bound
    { dryRun := false, positionSizeMultiplier := 1, maxPositionSize := 10000,
      maxTradeSize := 5000, minTradeSize := 1, maxRetryAttempts := 2, retryDelay := 500 }
    (fun _ => BoundaryOutcome.fail "boom") true "t"
    { id := "a", quantity := 10, price := 1, value := 10, valueNonempty := true }
    { connected := false, records := [] } (fun _ => "boom")
    (fun _ => rfl) rfl (by decide) (by norm_num) (by norm_num)
    (by norm_num [Position.parsedValue]) rfl

/-- Claim C4, confirmed.  For a non-duplicate buy candidate with its token id
present: the executed quantity is `rawQuantity * positionSizeMultiplier` and
the checks run in order — below-minimum on the notional
`tradeQuantity * price`, then above-maximum, then
`positionValue * positionSizeMultiplier > maxPositionSize` — each failure
returning a failed result with zero boundary submissions and the store
untouched; `executeSell` is unaffected by all three limit settings. -/
theorem c4_open_validation (cfg : Config) (oracle : ℕ → BoundaryOutcome) (persistOk : Bool)
    (trader : String) (p : Position) (db : DB) (idx : ℕ)
    (hdup : isDuplicateTrade db p.id trader Side.buy = false)
    (hid : p.id ≠ "") :
    ((executeBuy cfg oracle persistOk trader p db idx).result.success = true →
      (executeBuy cfg oracle persistOk trader p db idx).result.executedQuantity =
        some (roundQ4 (p.quantity * cfg.positionSizeMultiplier)) ∧
      (executeBuy cfg oracle persistOk trader p db idx).result.executedPrice =
        some (roundQ4 p.price)) ∧
    (p.quantity * cfg.positionSizeMultiplier * p.price < cfg.minTradeSize →
      executeBuy cfg oracle persistOk trader p db idx =
        { result := { baseResult cfg 0 with error := some ErrMsg.belowMin },
          db := db, submissions := 0, delays := [], oracleIdx := idx }) ∧
    (¬ p.quantity * cfg.positionSizeMultiplier * p.price < cfg.minTradeSize →
      p.quantity * cfg.positionSizeMultiplier * p.price > cfg.maxTradeSize →
      executeBuy cfg oracle persistOk trader p db idx =
        { result := { baseResult cfg 0 with error := some ErrMsg.aboveMax },
          db := db, submissions := 0, delays := [], oracleIdx := idx }) ∧
    (¬ p.quantity * cfg.positionSizeMultiplier * p.price < cfg.minTradeSize →
      ¬ p.quantity * cfg.positionSizeMultiplier * p.price > cfg.maxTradeSize →
      p.parsedValue * cfg.positionSizeMultiplier > cfg.maxPositionSize →
      executeBuy cfg oracle persistOk trader p db idx =
        { result := { baseResult cfg 0 with error := some ErrMsg.positionLimit },
          db := db, submissions := 0, delays := [], oracleIdx := idx }) ∧
    (∀ a b c : ℚ,
      executeSell { cfg with minTradeSize := a, maxTradeSize := b, maxPositionSize := c }
        oracle persistOk trader p db idx =
      executeSell cfg oracle persistOk trader p db idx) := by
  refine ⟨executeBuy_success_fields cfg oracle persistOk trader p db idx, ?_, ?_, ?_, ?_⟩
  · intro h
    unfold executeBuy
    refine retryDriver_done _ _ _ _ _ _ _ _ _ _ ?_
    simp [buyTryBody, hdup, hid, h]
  · intro h1 h2
    unfold executeBuy
    refine retryDriver_done _ _ _ _ _ _ _ _ _ _ ?_
    simp [buyTryBody, hdup, hid, h1, h2]
  · intro h1 h2 h3
    unfold executeBuy
    refine retryDriver_done _ _ _ _ _ _ _ _ _ _ ?_
    simp [buyTryBody, hdup, hid, h1, h2, h3]
  · intro a b c
    unfold executeSell
    exact retryDriver_congr { cfg with minTradeSize := a, maxTradeSize := b, maxPositionSize := c }
      cfg persistOk trader p _ _ db rfl rfl (fun i rc => rfl) cfg.maxRetryAttempts idx 0

/-- Witness for `c4_open_validation`: a candidate whose notional 4 sits
below the configured minimum 10, with a disconnected store. -/
theorem c4_open_validation_witness :
    ((executeBuy
        { dryRun := false, positionSizeMultiplier := 2, maxPositionSize := 10000,
          maxTradeSize := 5000, minTradeSize := 10, maxRetryAttempts := 2, retryDelay := 500 }
        (fun _ => BoundaryOutcome.ok "oid") true "t"
        { id := "a", quantity := 2, price := 1, value := 2, valueNonempty := true }
        { connected := false, records := [] } 0).result.success = true →
      (executeBuy
        { dryRun := false, positionSizeMultiplier := 2, maxPositionSize := 10000,
          maxTradeSize := 5000, minTradeSize := 10, maxRetryAttempts := 2, retryDelay := 500 }
        (fun _ => BoundaryOutcome.ok "oid") true "t"
        { id := "a", quantity := 2, price := 1, value := 2, valueNonempty := true }
        { connected := false, records := [] } 0).result.executedQuantity =
        some (roundQ4 ((2 : ℚ) * 2)) ∧
      (executeBuy
        { dryRun := false, positionSizeMultiplier := 2, maxPositionSize := 10000,
          maxTradeSize := 5000, minTradeSize := 10, maxRetryAttempts := 2, retryDelay := 500 }
        (fun _ => BoundaryOutcome.ok "oid") true "t"
        { id := "a", quantity := 2, price := 1, value := 2, valueNonempty := true }
        { connected := false, records := [] } 0).result.executedPrice =
        some (roundQ4 (1 : ℚ))) ∧
    ((2 : ℚ) * 2 * 1 < 10 →
      executeBuy
        { dryRun := false, positionSizeMultiplier := 2, maxPositionSize := 10000,
          maxTradeSize := 5000, minTradeSize := 10, maxRetryAttempts := 2, retryDelay := 500 }
        (fun _ => BoundaryOutcome.ok "oid") true "t"
        { id := "a", quantity := 2, price := 1, value := 2, valueNonempty := true }
        { connected := false, records := [] } 0 =
        { result :=
            { baseResult
                { dryRun := false, positionSizeMultiplier := 2, maxPositionSize := 10000,
                  maxTradeSize := 5000, minTradeSize := 10, maxRetryAttempts := 2,
                  retryDelay := 500 } 0 with
              error := some ErrMsg.belowMin },
          db := { connected := false, records := [] },
          submissions := 0, delays := [], oracleIdx := 0 }) ∧
    (¬ (2 : ℚ) * 2 * 1 < 10 → (2 : ℚ) * 2 * 1 > 5000 →
      executeBuy
        { dryRun := false, positionSizeMultiplier := 2, maxPositionSize := 10000,
          maxTradeSize := 5000, minTradeSize := 10, maxRetryAttempts := 2, retryDelay := 500 }
        (fun _ => BoundaryOutcome.ok "oid") true "t"
        { id := "a", quantity := 2, price := 1, value := 2, valueNonempty := true }
        { connected := false, records := [] } 0 =
        { result :=
            { baseResult
                { dryRun := false, positionSizeMultiplier := 2, maxPositionSize := 10000,
                  maxTradeSize := 5000, minTradeSize := 10, maxRetryAttempts := 2,
                  retryDelay := 500 } 0 with
              error := some ErrMsg.aboveMax },
          db := { connected := false, records := [] },
          submissions := 0, delays := [], oracleIdx := 0 }) ∧
    (¬ (2 : ℚ) * 2 * 1 < 10 → ¬ (2 : ℚ) * 2 * 1 > 5000 →
      Position.parsedValue
          { id := "a", quantity := 2, price := 1, value := 2, valueNonempty := true } * 2 >
        10000 →
      executeBuy
        { dryRun := false, positionSizeMultiplier := 2, maxPositionSize := 10000,
          maxTradeSize := 5000, minTradeSize := 10, maxRetryAttempts := 2, retryDelay := 500 }
        (fun _ => BoundaryOutcome.ok "oid") true "t"
        { id := "a", quantity := 2, price := 1, value := 2, valueNonempty := true }
        { connected := false, records := [] } 0 =
        { result :=
            { baseResult
                { dryRun := false, positionSizeMultiplier := 2, maxPositionSize := 10000,
                  maxTradeSize := 5000, minTradeSize := 10, maxRetryAttempts := 2,
                  retryDelay := 500 } 0 with
              error := some ErrMsg.positionLimit },
          db := { connected := false, records := [] },
          submissions := 0, delays := [], oracleIdx := 0 }) ∧
    (∀ a b c : ℚ,
      executeSell
        { ({ dryRun := false, positionSizeMultiplier := 2, maxPositionSize := 10000,
             maxTradeSize := 5000, minTradeSize := 10, maxRetryAttempts := 2,
             retryDelay := 500 } : Config) with
          minTradeSize := a, maxTradeSize := b, maxPositionSize := c }
        (fun _ => BoundaryOutcome.ok "oid") true "t"
        { id := "a", quantity := 2, price := 1, value := 2, valueNonempty := true }
        { connected := false, records := [] } 0 =
      executeSell
        { dryRun := false, positionSizeMultiplier := 2, maxPositionSize := 10000,
          maxTradeSize := 5000, minTradeSize := 10, maxRetryAttempts := 2, retryDelay := 500 }
        (fun _ => BoundaryOutcome.ok "oid") true "t"
        { id := "a", quantity := 2, price := 1, value := 2, valueNonempty := true }
        { connected := false, records := [] } 0) :=
  c4_open_validation
    { dryRun := false, positionSizeMultiplier := 2, maxPositionSize := 10000,
      maxTradeSize := 5000, minTradeSize := 10, maxRetryAttempts := 2, retryDelay := 500 }
    (fun _ => BoundaryOutcome.ok "oid") true "t"
    { id := "a", quantity := 2, price := 1, value := 2, valueNonempty := true }
    { connected := false, records := [] } 0 rfl (by decide)

/-- Claim C8, counterexample.  The store is connected and reachable, yet a
validation failure (notional 1 below minimum 10) produces a Failed result
that is not persisted: the store still holds no record.  `saveTrade` returns
early for every non-success result, so Failed and Skipped-Duplicate outcomes
are never written. -/
theorem c8_counterexample :
    (executeBuy
      { dryRun := false, positionSizeMultiplier := 1, maxPositionSize := 10000,
        maxTradeSize := 5000, minTradeSize := 10, maxRetryAttempts := 3, retryDelay := 1000 }
      (fun _ => BoundaryOutcome.ok "oid") true "t"
      { id := "a", quantity := 1, price := 1, value := 1, valueNonempty := true }
      { connected := true, records := [] } 0).result.success = false ∧
    (executeBuy
      { dryRun := false, positionSizeMultiplier := 1, maxPositionSize := 10000,
        maxTradeSize := 5000, minTradeSize := 10, maxRetryAttempts := 3, retryDelay := 1000 }
      (fun _ => BoundaryOutcome.ok "oid") true "t"
      { id := "a", quantity := 1, price := 1, value := 1, valueNonempty := true }
      { connected := true, records := [] } 0).result.error = some ErrMsg.belowMin ∧
    (executeBuy
      { dryRun := false, positionSizeMultiplier := 1, maxPositionSize := 10000,
        maxTradeSize := 5000, minTradeSize := 10, maxRetryAttempts := 3, retryDelay := 1000 }
      (fun _ => BoundaryOutcome.ok "oid") true "t"
      { id := "a", quantity := 1, price := 1, value := 1, valueNonempty := true }
      { connected := true, records := [] } 0).db.records = [] := by
  have h : executeBuy
      { dryRun := false, positionSizeMultiplier := 1, maxPositionSize := 10000,
        maxTradeSize := 5000, minTradeSize := 10, maxRetryAttempts := 3, retryDelay := 1000 }
      (fun _ => BoundaryOutcome.ok "oid") true "t"
      { id := "a", quantity := 1, price := 1, value := 1, valueNonempty := true }
      { connected := true, records := [] } 0 =
      { result :=
          { baseResult
              { dryRun := false, positionSizeMultiplier := 1, maxPositionSize := 10000,
                maxTradeSize := 5000, minTradeSize := 10, maxRetryAttempts := 3,
                retryDelay := 1000 } 0 with
            error := some ErrMsg.belowMin },
        db := { connected := true, records := [] },
        submissions := 0, delays := [], oracleIdx := 0 } := by
    unfold executeBuy
    refine retryDriver_done _ _ _ _ _ _ _ _ _ _ ?_
    norm_num [buyTryBody, isDuplicateTrade, hasSuccessRecord,
      show ("a" : String) ≠ "" by decide]
  rw [h]
  exact ⟨rfl, rfl, rfl⟩

/-- Claim C8, amended.  When the store is connected only Success outcomes are
persisted: a result with `success = false` (validation failure, duplicate
skip, or exhausted retries) leaves the store untouched; a Success persists a
record keyed by the position id, the trader and the side derived from the
truthiness of `position.value`; and a persistence failure never changes the
returned result or the number of submissions, for both sides. -/
theorem c8_persist_success_only (cfg : Config) (oracle : ℕ → BoundaryOutcome)
    (trader : String) (p : Position) (db : DB) (idx : ℕ) :
    (∀ persistOk,
      (executeBuy cfg oracle persistOk trader p db idx).result.success = false →
      (executeBuy cfg oracle persistOk trader p db idx).db = db) ∧
    (∀ persistOk,
      (executeSell cfg oracle persistOk trader p db idx).result.success = false →
      (executeSell cfg oracle persistOk trader p db idx).db = db) ∧
    (db.connected = true → AllSuccess db →
      (executeBuy cfg oracle true trader p db idx).result.success = true →
      hasSuccessRecord (executeBuy cfg oracle true trader p db idx).db
        p.id trader p.storedSide = true) ∧
    (db.connected = true → AllSuccess db →
      (executeSell cfg oracle true trader p db idx).result.success = true →
      hasSuccessRecord (executeSell cfg oracle true trader p db idx).db
        p.id trader p.storedSide = true) ∧
    ((executeBuy cfg oracle true trader p db idx).result =
        (executeBuy cfg oracle false trader p db idx).result ∧
      (executeBuy cfg oracle true trader p db idx).submissions =
        (executeBuy cfg oracle false trader p db idx).submissions) ∧
    ((executeSell cfg oracle true trader p db idx).result =
        (executeSell cfg oracle false trader p db idx).result ∧
      (executeSell cfg oracle true trader p db idx).submissions =
        (executeSell cfg oracle false trader p db idx).submissions) := by
  refine ⟨fun persistOk => executeBuy_fail_db cfg oracle persistOk trader p db idx,
    fun persistOk => executeSell_fail_db cfg oracle persistOk trader p db idx,
    fun hc hall => executeBuy_success_recordSide cfg oracle true trader p db idx hc rfl hall,
    fun hc hall => executeSell_success_record cfg oracle true trader p db idx hc rfl hall,
    ?_, ?_⟩
  · have h := retryDriver_rel cfg true false trader p
      (buyTryBody cfg oracle true trader p) (buyTryBody cfg oracle false trader p) db
      (fun i rc => buyTryBody_rel cfg oracle true false trader p db i rc)
      cfg.maxRetryAttempts idx 0
    exact ⟨h.1, h.2.1⟩
  · have h := retryDriver_rel cfg true false trader p
      (sellTryBody cfg oracle true trader p) (sellTryBody cfg oracle false trader p) db
      (fun i rc => sellTryBody_rel cfg oracle true false trader p db i rc)
      cfg.maxRetryAttempts idx 0
    exact ⟨h.1, h.2.1⟩

/-- Witness for `c8_persist_success_only`: a dry-run success against a
connected empty store persists a buy-side record, and the returned result is
identical whether or not persistence succeeds. -/
theorem c8_persist_success_only_witness :
    hasSuccessRecord
      (executeBuy
        { dryRun := true, positionSizeMultiplier := 1, maxPositionSize := 10000,
          maxTradeSize := 5000, minTradeSize := 1, maxRetryAttempts := 2, retryDelay := 500 }
        (fun _ => BoundaryOutcome.ok "o") true "t"
        { id := "a", quantity := 5, price := 1, value := 5, valueNonempty := true }
        { connected := true, records := [] } 0).db
      "a" "t" Side.buy = true ∧
    (executeBuy
        { dryRun := true, positionSizeMultiplier := 1, maxPositionSize := 10000,
          maxTradeSize := 5000, minTradeSize := 1, maxRetryAttempts := 2, retryDelay := 500 }
        (fun _ => BoundaryOutcome.ok "o") true "t"
        { id := "a", quantity := 5, price := 1, value := 5, valueNonempty := true }
        { connected := true, records := [] } 0).result =
      (executeBuy
        { dryRun := true, positionSizeMultiplier := 1, maxPositionSize := 10000,
          maxTradeSize := 5000, minTradeSize := 1, maxRetryAttempts := 2, retryDelay := 500 }
        (fun _ => BoundaryOutcome.ok "o") false "t"
        { id := "a", quantity := 5, price := 1, value := 5, valueNonempty := true }
        { connected := true, records := [] } 0).result := by
  have h := c8_persist_success_only
    { dryRun := true, positionSizeMultiplier := 1, maxPositionSize := 10000,
      maxTradeSize := 5000, minTradeSize := 1, maxRetryAttempts := 2, retryDelay := 500 }
    (fun _ => BoundaryOutcome.ok "o") "t"
    { id := "a", quantity := 5, price := 1, value := 5, valueNonempty := true }
    { connected := true, records := [] } 0
  have hsucc : (executeBuy
      { dryRun := true, positionSizeMultiplier := 1, maxPositionSize := 10000,
        maxTradeSize := 5000, minTradeSize := 1, maxRetryAttempts := 2, retryDelay := 500 }
      (fun _ => BoundaryOutcome.ok "o") true "t"
      { id := "a", quantity := 5, price := 1, value := 5, valueNonempty := true }
      { connected := true, records := [] } 0).result.success = true := by
    norm_num [executeBuy, retryDriver, buyTryBody, isDuplicateTrade, hasSuccessRecord,
      saveTrade, DB.insertTrade, Position.parsedValue, Position.storedSide, baseResult,
      show ("a" : String) ≠ "" by decide]
  exact ⟨h.2.2.1 rfl (fun r hr => absurd hr (List.not_mem_nil r)) hsucc, h.2.2.2.2.1.1⟩

/-! ## Position-map lemmas -/

theorem insertPos_entry_inv (l : List Position) (m : List (String × Position)) (p : Position)
    (hm : ∀ e ∈ m, e.2.id = e.1 ∧ e.2 ∈ l) (hp : p ∈ l) :
    ∀ e ∈ insertPos m p, e.2.id = e.1 ∧ e.2 ∈ l := by
  unfold insertPos
  split
  · intro e he
    rcases List.mem_map.mp he with ⟨x, hx, hxe⟩
    by_cases hxk : (x.1 == p.id) = true
    · rw [hxk] at hxe
      simp only [if_true] at hxe
      subst hxe
      exact ⟨by simpa using (beq_iff_eq.mp hxk).symm, hp⟩
    · rw [Bool.not_eq_true] at hxk
      rw [hxk] at hxe
      simp only [Bool.false_eq_true, if_false] at hxe
      subst hxe
      exact hm x hx
  · intro e he
    rcases List.mem_append.mp he with he | he
    · exact hm e he
    · simp only [List.mem_singleton] at he
      subst he
      exact ⟨rfl, hp⟩

theorem mkMap_entry_inv (ps : List Position) :
    ∀ e ∈ mkMap ps, e.2.id = e.1 ∧ e.2 ∈ ps := by
  have haux : ∀ (l : List Position) (m : List (String × Position)),
      (∀ e ∈ m, e.2.id = e.1 ∧ e.2 ∈ ps) → (∀ p ∈ l, p ∈ ps) →
      ∀ e ∈ l.foldl insertPos m, e.2.id = e.1 ∧ e.2 ∈ ps := by
    intro l
    induction l with
    | nil => intro m hm _ e he; exact hm e he
    | cons p t ih =>
      intro m hm hl e he
      refine ih (insertPos m p) ?_ (fun q hq => hl q (List.mem_cons_of_mem _ hq)) e he
      exact insertPos_entry_inv ps m p hm (hl p (List.mem_cons_self _ _))
  intro e he
  exact haux ps [] (fun x hx => absurd hx (List.not_mem_nil x)) (fun q hq => hq) e he

theorem any_fst_map_replace (m : List (String × Position)) (p : Position) (pid : String) :
    (List.map (fun e => if e.1 == p.id then (e.1, p) else e) m).any
        (fun e => e.1 == pid) =
      m.any (fun e => e.1 == pid) := by
  induction m with
  | nil => rfl
  | cons a t ih =>
    simp only [List.map_cons, List.any_cons, ih]
    congr 1
    split <;> rfl

theorem insertPos_hasKey (m : List (String × Position)) (p : Position) (pid : String) :
    hasKey (insertPos m p) pid = (hasKey m pid || (p.id == pid)) := by
  unfold insertPos hasKey
  split
  · rename_i h
    rw [any_fst_map_replace]
    by_cases hpp : (p.id == pid) = true
    · have : p.id = pid := beq_iff_eq.mp hpp
      subst this
      simp [h]
    · rw [Bool.not_eq_true] at hpp
      simp [hpp]
  · simp [List.any_append]

theorem hasKey_mkMap (ps : List Position) (pid : String) :
    hasKey (mkMap ps) pid = ps.any (fun p => p.id == pid) := by
  have haux : ∀ (l : List Position) (m : List (String × Position)),
      hasKey (l.foldl insertPos m) pid = (hasKey m pid || l.any (fun p => p.id == pid)) := by
    intro l
    induction l with
    | nil => intro m; simp
    | cons p t ih =>
      intro m
      simp only [List.foldl_cons, List.any_cons, ih, insertPos_hasKey]
      rw [Bool.or_assoc]
  have h0 : hasKey ([] : List (String × Position)) pid = false := rfl
  rw [mkMap, haux, h0, Bool.false_or]

/-! ## Orchestrator loop lemmas -/

theorem processBuys_db (cfg : Config) (oracle : ℕ → BoundaryOutcome) (persistOk : Bool)
    (trader : String) (ps : List Position) :
    ∀ st : OrchState,
      (processBuys cfg oracle persistOk trader ps st).1.db.connected = st.db.connected ∧
      (∀ x ∈ st.db.records, x ∈ (processBuys cfg oracle persistOk trader ps st).1.db.records) ∧
      (AllSuccess st.db → AllSuccess (processBuys cfg oracle persistOk trader ps st).1.db) := by
  induction ps with
  | nil =>
    intro st
    exact ⟨rfl, fun x hx => hx, fun h => h⟩
  | cons p rest ih =>
    intro st
    have hinv := executeBuy_dbInv cfg oracle persistOk trader p st.db st.oracleIdx
    have key : ∀ st1 : OrchState,
        st1.db = (executeBuy cfg oracle persistOk trader p st.db st.oracleIdx).db →
        (processBuys cfg oracle persistOk trader rest st1).1.db.connected = st.db.connected ∧
        (∀ x ∈ st.db.records,
          x ∈ (processBuys cfg oracle persistOk trader rest st1).1.db.records) ∧
        (AllSuccess st.db →
          AllSuccess (processBuys cfg oracle persistOk trader rest st1).1.db) := by
      intro st1 hdb
      rcases ih st1 with ⟨hcon, hmono, hall⟩
      rw [hdb] at hcon hmono hall
      exact ⟨hcon.trans hinv.1, fun x hx => hmono x (hinv.2.1 x hx),
        fun h => hall (hinv.2.2 h)⟩
    simp only [processBuys]
    split
    · exact key _ rfl
    · exact key _ rfl

theorem processSells_db (cfg : Config) (oracle : ℕ → BoundaryOutcome) (persistOk : Bool)
    (trader : String) (ps : List Position) :
    ∀ st : OrchState,
      (processSells cfg oracle persistOk trader ps st).1.db.connected = st.db.connected ∧
      (∀ x ∈ st.db.records, x ∈ (processSells cfg oracle persistOk trader ps st).1.db.records) ∧
      (AllSuccess st.db → AllSuccess (processSells cfg oracle persistOk trader ps st).1.db) := by
  induction ps with
  | nil =>
    intro st
    exact ⟨rfl, fun x hx => hx, fun h => h⟩
  | cons p rest ih =>
    intro st
    have hinv := executeSell_dbInv cfg oracle persistOk trader p st.db st.oracleIdx
    have key : ∀ st1 : OrchState,
        st1.db = (executeSell cfg oracle persistOk trader p st.db st.oracleIdx).db →
        (processSells cfg oracle persistOk trader rest st1).1.db.connected = st.db.connected ∧
        (∀ x ∈ st.db.records,
          x ∈ (processSells cfg oracle persistOk trader rest st1).1.db.records) ∧
        (AllSuccess st.db →
          AllSuccess (processSells cfg oracle persistOk trader rest st1).1.db) := by
      intro st1 hdb
      rcases ih st1 with ⟨hcon, hmono, hall⟩
      rw [hdb] at hcon hmono hall
      exact ⟨hcon.trans hinv.1, fun x hx => hmono x (hinv.2.1 x hx),
        fun h => hall (hinv.2.2 h)⟩
    simp only [processSells]
    split
    · exact key _ rfl
    · exact key _ rfl

theorem processBuys_trace (cfg : Config) (oracle : ℕ → BoundaryOutcome) (persistOk : Bool)
    (trader : String) (ps : List Position) :
    ∀ st : OrchState, ∀ e ∈ (processBuys cfg oracle persistOk trader ps st).2,
      e.side = Side.buy ∧ ∃ p ∈ ps, e.posId = p.id := by
  induction ps with
  | nil =>
    intro st e he
    simp [processBuys] at he
  | cons p rest ih =>
    intro st e he
    simp only [processBuys] at he
    rcases List.mem_cons.mp he with he | he
    · subst he
      exact ⟨rfl, p, List.mem_cons_self _ _, rfl⟩
    · rcases ih _ e he with ⟨hs, q, hq, heq⟩
      exact ⟨hs, q, List.mem_cons_of_mem _ hq, heq⟩

theorem processSells_trace (cfg : Config) (oracle : ℕ → BoundaryOutcome) (persistOk : Bool)
    (trader : String) (ps : List Position) :
    ∀ st : OrchState, ∀ e ∈ (processSells cfg oracle persistOk trader ps st).2,
      e.side = Side.sell ∧ ∃ p ∈ ps, e.posId = p.id := by
  induction ps with
  | nil =>
    intro st e he
    simp [processSells] at he
  | cons p rest ih =>
    intro st e he
    simp only [processSells] at he
    rcases List.mem_cons.mp he with he | he
    · subst he
      exact ⟨rfl, p, List.mem_cons_self _ _, rfl⟩
    · rcases ih _ e he with ⟨hs, q, hq, heq⟩
      exact ⟨hs, q, List.mem_cons_of_mem _ hq, heq⟩

theorem hasId_append_singleton (l : List String) (a x : String) :
    hasId (l ++ [a]) x = (hasId l x || (a == x)) := by
  simp [hasId, List.any_append]

theorem hasId_erase_sub (l : List String) (a x : String)
    (h : hasId (l.erase a) x = true) : hasId l x = true := by
  unfold hasId at h ⊢
  rcases List.any_eq_true.mp h with ⟨y, hy, hp⟩
  exact List.any_eq_true.mpr ⟨y, List.mem_of_mem_erase hy, hp⟩

theorem processBuys_executed (cfg : Config) (oracle : ℕ → BoundaryOutcome) (persistOk : Bool)
    (trader : String) (ps : List Position) :
    ∀ (st : OrchState) (pid : String),
      (hasId (processBuys cfg oracle persistOk trader ps st).1.executed pid = true →
        hasId st.executed pid = true ∨
        hasBuySuccess (processBuys cfg oracle persistOk trader ps st).2 pid = true) ∧
      (hasId st.executed pid = true →
        hasId (processBuys cfg oracle persistOk trader ps st).1.executed pid = true) := by
  induction ps with
  | nil =>
    intro st pid
    exact ⟨fun h => Or.inl h, fun h => h⟩
  | cons p rest ih =>
    intro st pid
    simp only [processBuys]
    split
    · rename_i hsucc
      rcases ih {st with
          executed := st.executed ++ [p.id],
          db := (executeBuy cfg oracle persistOk trader p st.db st.oracleIdx).db,
          totalTradesExecuted := st.totalTradesExecuted + 1,
          oracleIdx := (executeBuy cfg oracle persistOk trader p st.db st.oracleIdx).oracleIdx} pid
        with ⟨h1, h2⟩
      constructor
      · intro hfin
        rcases h1 hfin with hpre | htail
        · rw [hasId_append_singleton] at hpre
          rcases Bool.or_eq_true_iff.mp hpre with hpre | hpe
          · exact Or.inl hpre
          · refine Or.inr ?_
            unfold hasBuySuccess
            simp only [List.any_cons]
            refine Bool.or_eq_true_iff.mpr (Or.inl ?_)
            simp [hsucc, hpe]
        · refine Or.inr ?_
          unfold hasBuySuccess at htail ⊢
          simp only [List.any_cons, htail, Bool.or_true]
      · intro hpre
        refine h2 ?_
        rw [hasId_append_singleton, hpre, Bool.true_or]
    · rename_i hsucc
      rcases ih {st with
          db := (executeBuy cfg oracle persistOk trader p st.db st.oracleIdx).db,
          totalTradesFailed := st.totalTradesFailed + 1,
          oracleIdx := (executeBuy cfg oracle persistOk trader p st.db st.oracleIdx).oracleIdx} pid
        with ⟨h1, h2⟩
      constructor
      · intro hfin
        rcases h1 hfin with hpre | htail
        · exact Or.inl hpre
        · refine Or.inr ?_
          unfold hasBuySuccess at htail ⊢
          simp only [List.any_cons, htail, Bool.or_true]
      · exact h2

theorem processSells_executed (cfg : Config) (oracle : ℕ → BoundaryOutcome) (persistOk : Bool)
    (trader : String) (ps : List Position) :
    ∀ (st : OrchState) (pid : String),
      hasId (processSells cfg oracle persistOk trader ps st).1.executed pid = true →
      hasId st.executed pid = true := by
  induction ps with
  | nil =>
    intro st pid h
    exact h
  | cons p rest ih =>
    intro st pid
    simp only [processSells]
    split
    · intro hfin
      have := ih {st with
          executed := st.executed.erase p.id,
          db := (executeSell cfg oracle persistOk trader p st.db st.oracleIdx).db,
          totalTradesExecuted := st.totalTradesExecuted + 1,
          oracleIdx := (executeSell cfg oracle persistOk trader p st.db st.oracleIdx).oracleIdx} pid hfin
      exact hasId_erase_sub _ _ _ this
    · intro hfin
      exact ih {st with
          db := (executeSell cfg oracle persistOk trader p st.db st.oracleIdx).db,
          totalTradesFailed := st.totalTradesFailed + 1,
          oracleIdx := (executeSell cfg oracle persistOk trader p st.db st.oracleIdx).oracleIdx}
        pid hfin

theorem buySuccessCount_cons (e : TraceEntry) (tr : List TraceEntry) (pid : String) :
    buySuccessCount (e :: tr) pid =
      buySuccessCount tr pid +
        (if (decide (e.side = Side.buy) && e.success && (e.posId == pid)) = true then 1 else 0) := by
  simp [buySuccessCount, List.countP_cons]

theorem hasBuySuccess_cons (e : TraceEntry) (tr : List TraceEntry) (pid : String) :
    hasBuySuccess (e :: tr) pid =
      ((decide (e.side = Side.buy) && e.success && (e.posId == pid)) || hasBuySuccess tr pid) := by
  simp [hasBuySuccess, List.any_cons]

theorem buySuccessCount_eq_zero (tr : List TraceEntry) (pid : String)
    (h : hasBuySuccess tr pid = false) : buySuccessCount tr pid = 0 := by
  unfold buySuccessCount
  refine List.countP_eq_zero.mpr ?_
  intro e he
  exact (List.any_eq_false.mp h) e he

theorem buySuccessCount_append (tr1 tr2 : List TraceEntry) (pid : String) :
    buySuccessCount (tr1 ++ tr2) pid = buySuccessCount tr1 pid + buySuccessCount tr2 pid := by
  simp [buySuccessCount, List.countP_append]

theorem hasBuySuccess_append (tr1 tr2 : List TraceEntry) (pid : String) :
    hasBuySuccess (tr1 ++ tr2) pid = (hasBuySuccess tr1 pid || hasBuySuccess tr2 pid) := by
  simp [hasBuySuccess, List.any_append]

theorem hasSellEntry_append (tr1 tr2 : List TraceEntry) (pid : String) :
    hasSellEntry (tr1 ++ tr2) pid = (hasSellEntry tr1 pid || hasSellEntry tr2 pid) := by
  simp [hasSellEntry, List.any_append]

theorem processBuys_count (cfg : Config) (oracle : ℕ → BoundaryOutcome) (trader : String)
    (ps : List Position) :
    ∀ (st : OrchState) (pid : String),
      st.db.connected = true → AllSuccess st.db →
      (∀ p ∈ ps, p.valueNonempty = true) →
      buySuccessCount (processBuys cfg oracle true trader ps st).2 pid ≤ 1 ∧
      (hasSuccessRecord st.db pid trader Side.buy = true →
        buySuccessCount (processBuys cfg oracle true trader ps st).2 pid = 0) ∧
      (hasBuySuccess (processBuys cfg oracle true trader ps st).2 pid = true →
        hasSuccessRecord (processBuys cfg oracle true trader ps st).1.db
          pid trader Side.buy = true) := by
  induction ps with
  | nil =>
    intro st pid hc hall hv
    refine ⟨by simp [processBuys, buySuccessCount],
      fun _ => by simp [processBuys, buySuccessCount],
      fun h => by simp [processBuys, hasBuySuccess] at h⟩
  | cons p rest ih =>
    intro st pid hc hall hv
    have hvp : p.valueNonempty = true := hv p (List.mem_cons_self _ _)
    have hvr : ∀ q ∈ rest, q.valueNonempty = true :=
      fun q hq => hv q (List.mem_cons_of_mem _ hq)
    have hinv := executeBuy_dbInv cfg oracle true trader p st.db st.oracleIdx
    simp only [processBuys]
    split
    · rename_i hsucc
      have hdupf := executeBuy_success_not_dup cfg oracle true trader p st.db st.oracleIdx hsucc
      have hnorec : hasSuccessRecord st.db p.id trader Side.buy = false := by
        simpa [isDuplicateTrade, hc] using hdupf
      have hrec1 : hasSuccessRecord
          (executeBuy cfg oracle true trader p st.db st.oracleIdx).db
          p.id trader Side.buy = true :=
        executeBuy_success_record cfg oracle true trader p st.db st.oracleIdx hc rfl hvp hall hsucc
      rcases ih
          {st with
            executed := st.executed ++ [p.id],
            db := (executeBuy cfg oracle true trader p st.db st.oracleIdx).db,
            totalTradesExecuted := st.totalTradesExecuted + 1,
            oracleIdx := (executeBuy cfg oracle true trader p st.db st.oracleIdx).oracleIdx} pid
          (hinv.1.trans hc) (hinv.2.2 hall) hvr with ⟨t1, t2, t3⟩
      have hdrest := processBuys_db cfg oracle true trader rest
        {st with
          executed := st.executed ++ [p.id],
          db := (executeBuy cfg oracle true trader p st.db st.oracleIdx).db,
          totalTradesExecuted := st.totalTradesExecuted + 1,
          oracleIdx := (executeBuy cfg oracle true trader p st.db st.oracleIdx).oracleIdx}
      by_cases hpid : p.id = pid
      · subst hpid
        have htail0 := t2 hrec1
        have hfinrec := hasSuccessRecord_mono _ _ _ _ _ hdrest.2.1 hrec1
        refine ⟨?_, ?_, fun _ => hfinrec⟩
        · rw [buySuccessCount_cons, htail0]
          simp [hsucc]
        · intro hpre
          rw [hpre] at hnorec
          cases hnorec
      · have hbeq : (p.id == pid) = false := by
          simp [hpid]
        refine ⟨?_, ?_, ?_⟩
        · rw [buySuccessCount_cons, hbeq]
          simpa using t1
        · intro hpre
          rw [buySuccessCount_cons, hbeq]
          have hpre1 : hasSuccessRecord
              (executeBuy cfg oracle true trader p st.db st.oracleIdx).db
              pid trader Side.buy = true :=
            hasSuccessRecord_mono _ _ _ _ _ hinv.2.1 hpre
          simpa using t2 hpre1
        · intro hbs
          rw [hasBuySuccess_cons, hbeq] at hbs
          simp only [Bool.and_false, Bool.false_or] at hbs
          exact t3 hbs
    · rename_i hsucc
      have hsf : (executeBuy cfg oracle true trader p st.db st.oracleIdx).result.success = false :=
        eq_false_of_ne_true hsucc
      have hfdb := executeBuy_fail_db cfg oracle true trader p st.db st.oracleIdx hsf
      rcases ih
          {st with
            db := (executeBuy cfg oracle true trader p st.db st.oracleIdx).db,
            totalTradesFailed := st.totalTradesFailed + 1,
            oracleIdx := (executeBuy cfg oracle true trader p st.db st.oracleIdx).oracleIdx} pid
          (by
            show (executeBuy cfg oracle true trader p st.db st.oracleIdx).db.connected = true
            rw [hfdb]
            exact hc)
          (by
            show AllSuccess (executeBuy cfg oracle true trader p st.db st.oracleIdx).db
            rw [hfdb]
            exact hall) hvr with ⟨t1, t2, t3⟩
      have hpredf : (decide (Side.buy = Side.buy) &&
          (executeBuy cfg oracle true trader p st.db st.oracleIdx).result.success &&
          (p.id == pid)) = false := by
        rw [hsf]
        simp
      refine ⟨?_, ?_, ?_⟩
      · rw [buySuccessCount_cons, hpredf]
        simpa using t1
      · intro hpre
        rw [buySuccessCount_cons, hpredf]
        have hpre1 : hasSuccessRecord
            (executeBuy cfg oracle true trader p st.db st.oracleIdx).db
            pid trader Side.buy = true := by
          rw [hfdb]
          exact hpre
        simpa using t2 hpre1
      · intro hbs
        rw [hasBuySuccess_cons, hpredf] at hbs
        simp only [Bool.false_or] at hbs
        exact t3 hbs

theorem no_buy_of_all_sell (tr : List TraceEntry) (pid : String)
    (h : ∀ e ∈ tr, e.side = Side.sell) :
    buySuccessCount tr pid = 0 ∧ hasBuySuccess tr pid = false := by
  constructor
  · refine List.countP_eq_zero.mpr ?_
    intro e he
    simp [h e he]
  · refine List.any_eq_false.mpr ?_
    intro e he
    simp [h e he]

theorem handleStatus_buy_guard (cfg : Config) (oracle : ℕ → BoundaryOutcome)
    (persistOk : Bool) (trader : String) (st : OrchState) (s : Status) :
    ∀ e ∈ (handleStatusUpdate cfg oracle persistOk trader st s).2, e.side = Side.buy →
      hasId st.executed e.posId = false ∧ hasKey st.lastPositions e.posId = false := by
  intro e he hbuy
  simp only [handleStatusUpdate] at he
  rcases List.mem_append.mp he with he | he
  · rcases (processBuys_trace cfg oracle persistOk trader _ _ e he).2 with ⟨p, hp, hep⟩
    rcases List.mem_map.mp hp with ⟨ent, hent, hpe⟩
    have hmem := (List.mem_filter.mp hent).1
    have hq := (List.mem_filter.mp hent).2
    have hinv := mkMap_entry_inv s.openPositions ent hmem
    simp only [Bool.and_eq_true, Bool.not_eq_true'] at hq
    have hid : e.posId = ent.1 := by
      rw [hep, ← hpe, hinv.1]
    rw [hid]
    exact ⟨hq.2, hq.1⟩
  · have hsell := (processSells_trace cfg oracle persistOk trader _ _ e he).1
    rw [hbuy] at hsell
    cases hsell

theorem handleStatus_sell_guard (cfg : Config) (oracle : ℕ → BoundaryOutcome)
    (persistOk : Bool) (trader : String) (st : OrchState) (s : Status)
    (hwf : ∀ x ∈ st.lastPositions, x.2.id = x.1) :
    ∀ e ∈ (handleStatusUpdate cfg oracle persistOk trader st s).2, e.side = Side.sell →
      hasId st.executed e.posId = true := by
  intro e he hsell
  simp only [handleStatusUpdate] at he
  rcases List.mem_append.mp he with he | he
  · have hbuy := (processBuys_trace cfg oracle persistOk trader _ _ e he).1
    rw [hsell] at hbuy
    cases hbuy
  · rcases (processSells_trace cfg oracle persistOk trader _ _ e he).2 with ⟨p, hp, hep⟩
    rcases List.mem_map.mp hp with ⟨ent, hent, hpe⟩
    have hmem := (List.mem_filter.mp hent).1
    have hq := (List.mem_filter.mp hent).2
    simp only [Bool.and_eq_true, Bool.not_eq_true'] at hq
    have hid : e.posId = ent.1 := by
      rw [hep, ← hpe, hwf ent hmem]
    rw [hid]
    exact hq.2

theorem handleStatus_lastPositions (cfg : Config) (oracle : ℕ → BoundaryOutcome)
    (persistOk : Bool) (trader : String) (st : OrchState) (s : Status) :
    (handleStatusUpdate cfg oracle persistOk trader st s).1.lastPositions =
      mkMap s.openPositions := rfl

theorem handleStatus_executed (cfg : Config) (oracle : ℕ → BoundaryOutcome)
    (persistOk : Bool) (trader : String) (st : OrchState) (s : Status) (pid : String) :
    hasId (handleStatusUpdate cfg oracle persistOk trader st s).1.executed pid = true →
    hasId st.executed pid = true ∨
      hasBuySuccess (handleStatusUpdate cfg oracle persistOk trader st s).2 pid = true := by
  intro hfin
  simp only [handleStatusUpdate] at hfin ⊢
  have h1 := processSells_executed cfg oracle persistOk trader _ _ pid hfin
  rcases (processBuys_executed cfg oracle persistOk trader _ _ pid).1 h1 with hpre | hsucc
  · exact Or.inl hpre
  · refine Or.inr ?_
    rw [hasBuySuccess_append, hsucc, Bool.true_or]

theorem handleStatus_count (cfg : Config) (oracle : ℕ → BoundaryOutcome) (trader : String)
    (st : OrchState) (s : Status) (pid : String)
    (hc : st.db.connected = true) (hall : AllSuccess st.db)
    (hv : ∀ p ∈ s.openPositions, p.valueNonempty = true) :
    buySuccessCount (handleStatusUpdate cfg oracle true trader st s).2 pid ≤ 1 ∧
    (hasSuccessRecord st.db pid trader Side.buy = true →
      buySuccessCount (handleStatusUpdate cfg oracle true trader st s).2 pid = 0) ∧
    (hasBuySuccess (handleStatusUpdate cfg oracle true trader st s).2 pid = true →
      hasSuccessRecord (handleStatusUpdate cfg oracle true trader st s).1.db
        pid trader Side.buy = true) ∧
    (handleStatusUpdate cfg oracle true trader st s).1.db.connected = true ∧
    AllSuccess (handleStatusUpdate cfg oracle true trader st s).1.db ∧
    (∀ x ∈ st.db.records,
      x ∈ (handleStatusUpdate cfg oracle true trader st s).1.db.records) := by
  have hvnew : ∀ p ∈ ((mkMap s.openPositions).filter (fun e =>
      !hasKey st.lastPositions e.1 && !hasId st.executed e.1)).map Prod.snd,
      p.valueNonempty = true := by
    intro p hp
    rcases List.mem_map.mp hp with ⟨ent, hent, hpe⟩
    have hmem := (List.mem_filter.mp hent).1
    have hinv := mkMap_entry_inv s.openPositions ent hmem
    rw [← hpe]
    exact hv ent.2 hinv.2
  rcases processBuys_count cfg oracle trader _ st pid hc hall hvnew with ⟨b1, b2, b3⟩
  have bdb := processBuys_db cfg oracle true trader (((mkMap s.openPositions).filter (fun e =>
      !hasKey st.lastPositions e.1 && !hasId st.executed e.1)).map Prod.snd) st
  have sdb := processSells_db cfg oracle true trader ((st.lastPositions.filter (fun e =>
      !hasKey (mkMap s.openPositions) e.1 && hasId st.executed e.1)).map Prod.snd)
    (processBuys cfg oracle true trader (((mkMap s.openPositions).filter (fun e =>
      !hasKey st.lastPositions e.1 && !hasId st.executed e.1)).map Prod.snd) st).1
  have hsells := no_buy_of_all_sell (processSells cfg oracle true trader
      ((st.lastPositions.filter (fun e =>
        !hasKey (mkMap s.openPositions) e.1 && hasId st.executed e.1)).map Prod.snd)
      (processBuys cfg oracle true trader (((mkMap s.openPositions).filter (fun e =>
        !hasKey st.lastPositions e.1 && !hasId st.executed e.1)).map Prod.snd) st).1).2 pid
    (fun e he => (processSells_trace cfg oracle true trader _ _ e he).1)
  simp only [handleStatusUpdate]
  refine ⟨?_, ?_, ?_, ?_, ?_, ?_⟩
  · rw [buySuccessCount_append, hsells.1]
    simpa using b1
  · intro hpre
    rw [buySuccessCount_append, hsells.1, b2 hpre]
  · intro hbs
    rw [hasBuySuccess_append, hsells.2, Bool.or_false] at hbs
    exact hasSuccessRecord_mono _ _ _ _ _ sdb.2.1 (b3 hbs)
  · exact sdb.1.trans (bdb.1.trans hc)
  · exact sdb.2.2 (bdb.2.2 hall)
  · exact fun x hx => sdb.2.1 x (bdb.2.1 x hx)

theorem runUpdates_count (cfg : Config) (oracle : ℕ → BoundaryOutcome) (trader : String)
    (updates : List Status) :
    ∀ (st : OrchState) (pid : String),
      st.db.connected = true → AllSuccess st.db →
      (∀ s ∈ updates, ∀ p ∈ s.openPositions, p.valueNonempty = true) →
      buySuccessCount (runUpdates cfg oracle true trader st updates).2 pid ≤ 1 ∧
      (hasSuccessRecord st.db pid trader Side.buy = true →
        buySuccessCount (runUpdates cfg oracle true trader st updates).2 pid = 0) ∧
      (hasBuySuccess (runUpdates cfg oracle true trader st updates).2 pid = true →
        hasSuccessRecord (runUpdates cfg oracle true trader st updates).1.db
          pid trader Side.buy = true) ∧
      (∀ x ∈ st.db.records, x ∈ (runUpdates cfg oracle true trader st updates).1.db.records) := by
  induction updates with
  | nil =>
    intro st pid hc hall hv
    refine ⟨by simp [runUpdates, buySuccessCount], fun _ => by simp [runUpdates, buySuccessCount],
      fun h => by simp [runUpdates, hasBuySuccess] at h, fun x hx => hx⟩
  | cons s rest ih =>
    intro st pid hc hall hv
    have hvs : ∀ p ∈ s.openPositions, p.valueNonempty = true := hv s (List.mem_cons_self _ _)
    have hvr : ∀ s2 ∈ rest, ∀ p ∈ s2.openPositions, p.valueNonempty = true :=
      fun s2 hs2 => hv s2 (List.mem_cons_of_mem _ hs2)
    rcases handleStatus_count cfg oracle trader st s pid hc hall hvs
      with ⟨h1, h2, h3, h4, h5, h6⟩
    rcases ih (handleStatusUpdate cfg oracle true trader st s).1 pid h4 h5 hvr
      with ⟨r1, r2, r3, r6⟩
    simp only [runUpdates]
    refine ⟨?_, ?_, ?_, ?_⟩
    · rw [buySuccessCount_append]
      by_cases hbs1 : hasBuySuccess (handleStatusUpdate cfg oracle true trader st s).2 pid = true
      · have := r2 (h3 hbs1)
        omega
      · have hz := buySuccessCount_eq_zero _ _ (eq_false_of_ne_true hbs1)
        omega
    · intro hpre
      rw [buySuccessCount_append, h2 hpre]
      have hpre1 := hasSuccessRecord_mono _ _ _ _ _ h6 hpre
      rw [r2 hpre1]
    · intro hbs
      rw [hasBuySuccess_append] at hbs
      rcases Bool.or_eq_true_iff.mp hbs with hbs | hbs
      · exact hasSuccessRecord_mono _ _ _ _ _ r6 (h3 hbs)
      · exact r3 hbs
    · exact fun x hx => r6 x (h6 x hx)

/-- Claim C1, amended.  An Opened position is forwarded to `executeBuy` only
when its identifier is neither in the executed set of the trader nor a key
of the stored target-position map of that trader; the durable-store check
happens inside `executeBuy`, which fails such calls without submitting.
Consequently, when the store is connected, starts with only success records,
persistence succeeds and positions carry nonempty value strings, at most one
buy execution result with `success = true` is produced per (identifier,
trader) pair across any sequence of status updates. -/
theorem c1_no_double_open (cfg : Config) (oracle : ℕ → BoundaryOutcome) (persistOk : Bool)
    (trader : String) :
    (∀ (st : OrchState) (s : Status),
      ∀ e ∈ (handleStatusUpdate cfg oracle persistOk trader st s).2, e.side = Side.buy →
        hasId st.executed e.posId = false ∧ hasKey st.lastPositions e.posId = false) ∧
    (∀ (st : OrchState) (updates : List Status) (pid : String),
      st.db.connected = true → AllSuccess st.db →
      (∀ s ∈ updates, ∀ p ∈ s.openPositions, p.valueNonempty = true) →
      buySuccessCount (runUpdates cfg oracle true trader st updates).2 pid ≤ 1) :=
  ⟨fun st s => handleStatus_buy_guard cfg oracle persistOk trader st s,
   fun st updates pid hc hall hv => (runUpdates_count cfg oracle trader updates st pid hc hall hv).1⟩

/-- Claim C1, counterexample to the forwarding clause.  The durable store
already holds a success record for ("a", "t", buy), the executed set and
the stored target-position map are empty, and a status containing position
"a" arrives: the position IS forwarded to `executeBuy` (the trace shows the
call, which then fails as a duplicate), whereas the claim says a position
recorded as a prior successful buy is never forwarded to `executeBuy`. -/
theorem c1_counterexample :
    hasSuccessRecord
      { connected := true,
        records := [{ positionId := "a", trader := "t", side := Side.buy, success := true }] }
      "a" "t" Side.buy = true ∧
    (handleStatusUpdate
      { dryRun := false, positionSizeMultiplier := 1, maxPositionSize := 10000,
        maxTradeSize := 5000, minTradeSize := 1, maxRetryAttempts := 3, retryDelay := 1000 }
      (fun _ => BoundaryOutcome.ok "oid") true "t"
      (initState
        { connected := true,
          records := [{ positionId := "a", trader := "t", side := Side.buy, success := true }] })
      { openPositions :=
          [{ id := "a", quantity := 5, price := 1, value := 5, valueNonempty := true }],
        totalValue := 5 }).2 =
      [{ side := Side.buy, posId := "a", success := false,
         error := some ErrMsg.duplicateTrade, submissions := 0 }] := by
  constructor
  · decide
  · norm_num [handleStatusUpdate, processBuys, processSells, executeBuy, retryDriver,
      buyTryBody, isDuplicateTrade, hasSuccessRecord, initState, mkMap, insertPos, hasKey,
      hasId, baseResult]

/-- Witness for `c1_no_double_open`: a fresh connected store, one status
holding position "a", an accepting boundary. -/
theorem c1_no_double_open_witness :
    (hasId (initState { connected := true, records := [] }).executed "a" = false ∧
     hasKey (initState { connected := true, records := [] }).lastPositions "a" = false) ∧
    buySuccessCount
      (runUpdates
        { dryRun := false, positionSizeMultiplier := 1, maxPositionSize := 10000,
          maxTradeSize := 5000, minTradeSize := 1, maxRetryAttempts := 3, retryDelay := 1000 }
        (fun _ => BoundaryOutcome.ok "oid") true "t"
        (initState { connected := true, records := [] })
        [{ openPositions :=
             [{ id := "a", quantity := 5, price := 1, value := 5, valueNonempty := true }],
           totalValue := 5 }]).2 "a" ≤ 1 := by
  have h := c1_no_double_open
    { dryRun := false, positionSizeMultiplier := 1, maxPositionSize := 10000,
      maxTradeSize := 5000, minTradeSize := 1, maxRetryAttempts := 3, retryDelay := 1000 }
    (fun _ => BoundaryOutcome.ok "oid") true "t"
  constructor
  · have htr : (handleStatusUpdate
        { dryRun := false, positionSizeMultiplier := 1, maxPositionSize := 10000,
          maxTradeSize := 5000, minTradeSize := 1, maxRetryAttempts := 3, retryDelay := 1000 }
        (fun _ => BoundaryOutcome.ok "oid") true "t"
        (initState { connected := true, records := [] })
        { openPositions :=
            [{ id := "a", quantity := 5, price := 1, value := 5, valueNonempty := true }],
          totalValue := 5 }).2 =
        [{ side := Side.buy, posId := "a", success := true, error := none,
           submissions := 1 }] := by
      norm_num [handleStatusUpdate, processBuys, processSells, executeBuy, retryDriver,
        buyTryBody, isDuplicateTrade, hasSuccessRecord, initState, mkMap, insertPos, hasKey,
        hasId, baseResult, saveTrade, DB.insertTrade, Position.parsedValue, Position.storedSide,
        show ("a" : String) ≠ "" by decide]
    refine h.1 (initState { connected := true, records := [] })
      { openPositions :=
          [{ id := "a", quantity := 5, price := 1, value := 5, valueNonempty := true }],
        totalValue := 5 }
      { side := Side.buy, posId := "a", success := true, error := none, submissions := 1 }
      ?_ rfl
    rw [htr]
    exact List.mem_singleton.mpr rfl
  · refine h.2 (initState { connected := true, records := [] })
      [{ openPositions :=
           [{ id := "a", quantity := 5, price := 1, value := 5, valueNonempty := true }],
         totalValue := 5 }] "a" rfl (fun r hr => absurd hr (List.not_mem_nil r)) ?_
    intro s hs p hp
    simp only [List.mem_cons, List.not_mem_nil, or_false] at hs
    subst hs
    simp only [List.mem_cons, List.not_mem_nil, or_false] at hp
    subst hp
    rfl

theorem hasSellEntry_exists (tr : List TraceEntry) (pid : String)
    (h : hasSellEntry tr pid = true) :
    ∃ e ∈ tr, e.side = Side.sell ∧ e.posId = pid := by
  unfold hasSellEntry at h
  rcases List.any_eq_true.mp h with ⟨e, he, hp⟩
  simp only [Bool.and_eq_true, decide_eq_true_eq, beq_iff_eq] at hp
  exact ⟨e, he, hp.1, hp.2⟩

theorem runUpdates_sell_inv (cfg : Config) (oracle : ℕ → BoundaryOutcome) (persistOk : Bool)
    (trader : String) (updates : List Status) :
    ∀ (st : OrchState) (pid : String),
      (∀ x ∈ st.lastPositions, x.2.id = x.1) →
      (hasSellEntry (runUpdates cfg oracle persistOk trader st updates).2 pid = true →
        hasId st.executed pid = true ∨
        hasBuySuccess (runUpdates cfg oracle persistOk trader st updates).2 pid = true) ∧
      (hasId (runUpdates cfg oracle persistOk trader st updates).1.executed pid = true →
        hasId st.executed pid = true ∨
        hasBuySuccess (runUpdates cfg oracle persistOk trader st updates).2 pid = true) ∧
      (∀ x ∈ (runUpdates cfg oracle persistOk trader st updates).1.lastPositions,
        x.2.id = x.1) := by
  induction updates with
  | nil =>
    intro st pid hwf
    refine ⟨fun h => ?_, fun h => Or.inl h, hwf⟩
    simp [runUpdates, hasSellEntry] at h
  | cons s rest ih =>
    intro st pid hwf
    have hwf1 : ∀ x ∈ (handleStatusUpdate cfg oracle persistOk trader st s).1.lastPositions,
        x.2.id = x.1 := by
      rw [handleStatus_lastPositions]
      intro x hx
      exact (mkMap_entry_inv _ x hx).1
    rcases ih (handleStatusUpdate cfg oracle persistOk trader st s).1 pid hwf1
      with ⟨i1, i2, i3⟩
    simp only [runUpdates]
    refine ⟨?_, ?_, i3⟩
    · intro hse
      rw [hasSellEntry_append] at hse
      rcases Bool.or_eq_true_iff.mp hse with hse | hse
      · rcases hasSellEntry_exists _ _ hse with ⟨e, he, hside, hpid⟩
        have := handleStatus_sell_guard cfg oracle persistOk trader st s hwf e he hside
        rw [hpid] at this
        exact Or.inl this
      · rcases i1 hse with h1 | h1
        · rcases handleStatus_executed cfg oracle persistOk trader st s pid h1 with h2 | h2
          · exact Or.inl h2
          · refine Or.inr ?_
            rw [hasBuySuccess_append, h2, Bool.true_or]
        · refine Or.inr ?_
          rw [hasBuySuccess_append, h1, Bool.or_true]
    · intro hf
      rcases i2 hf with h1 | h1
      · rcases handleStatus_executed cfg oracle persistOk trader st s pid h1 with h2 | h2
        · exact Or.inl h2
        · refine Or.inr ?_
          rw [hasBuySuccess_append, h2, Bool.true_or]
      · refine Or.inr ?_
        rw [hasBuySuccess_append, h1, Bool.or_true]

/-- Claim C5, confirmed.  A sell is attempted only for identifiers in the
executed set of the trader (closed positions are filtered on membership in that
set), and over any run from the freshly initialised state a sell attempt for
an identifier implies an earlier successful buy for it in the same trace —
an identifier never opened produces no sell execution at all. -/
theorem c5_close_requires_open (cfg : Config) (oracle : ℕ → BoundaryOutcome)
    (persistOk : Bool) (trader : String) :
    (∀ (st : OrchState) (s : Status),
      (∀ x ∈ st.lastPositions, x.2.id = x.1) →
      ∀ e ∈ (handleStatusUpdate cfg oracle persistOk trader st s).2, e.side = Side.sell →
        hasId st.executed e.posId = true) ∧
    (∀ (db : DB) (updates : List Status) (pid : String),
      hasSellEntry (runUpdates cfg oracle persistOk trader (initState db) updates).2 pid = true →
      hasBuySuccess (runUpdates cfg oracle persistOk trader (initState db) updates).2
        pid = true) := by
  constructor
  · exact fun st s hwf => handleStatus_sell_guard cfg oracle persistOk trader st s hwf
  · intro db updates pid hse
    rcases (runUpdates_sell_inv cfg oracle persistOk trader updates (initState db) pid
      (fun x hx => absurd hx (List.not_mem_nil x))).1 hse with h | h
    · simp [hasId, initState] at h
    · exact h

/-- Witness for `c5_close_requires_open`: a sell triggered by a disappeared
position with the identifier in the executed set, and a run that opens and
then closes position "a". -/
theorem c5_close_requires_open_witness :
    hasId ["a"] "a" = true ∧
    hasBuySuccess
      (runUpdates
        { dryRun := false, positionSizeMultiplier := 1, maxPositionSize := 10000,
          maxTradeSize := 5000, minTradeSize := 1, maxRetryAttempts := 0, retryDelay := 500 }
        (fun _ => BoundaryOutcome.ok "oid") true "t"
        (initState { connected := true, records := [] })
        [{ openPositions :=
             [{ id := "a", quantity := 5, price := 1, value := 5, valueNonempty := true }],
           totalValue := 5 },
         { openPositions := [], totalValue := 0 }]).2 "a" = true := by
  have h := c5_close_requires_open
    { dryRun := false, positionSizeMultiplier := 1, maxPositionSize := 10000,
      maxTradeSize := 5000, minTradeSize := 1, maxRetryAttempts := 0, retryDelay := 500 }
    (fun _ => BoundaryOutcome.ok "oid") true "t"
  constructor
  · have htr : (handleStatusUpdate
        { dryRun := false, positionSizeMultiplier := 1, maxPositionSize := 10000,
          maxTradeSize := 5000, minTradeSize := 1, maxRetryAttempts := 0, retryDelay := 500 }
        (fun _ => BoundaryOutcome.ok "oid") true "t"
        { executed := ["a"],
          lastPositions :=
            [("a", { id := "a", quantity := 5, price := 1, value := 5, valueNonempty := true })],
          db := { connected := false, records := [] },
          totalTradesExecuted := 0, totalTradesFailed := 0, oracleIdx := 0 }
        { openPositions := [], totalValue := 0 }).2 =
        [{ side := Side.sell, posId := "a", success := true, error := none,
           submissions := 1 }] := by
      norm_num [handleStatusUpdate, processBuys, processSells, executeSell, retryDriver,
        sellTryBody, initState, mkMap, insertPos, hasKey, hasId, baseResult, saveTrade,
        show ("a" : String) ≠ "" by decide]
    refine h.1
      { executed := ["a"],
        lastPositions :=
          [("a", { id := "a", quantity := 5, price := 1, value := 5, valueNonempty := true })],
        db := { connected := false, records := [] },
        totalTradesExecuted := 0, totalTradesFailed := 0, oracleIdx := 0 }
      { openPositions := [], totalValue := 0 }
      ?_
      { side := Side.sell, posId := "a", success := true, error := none, submissions := 1 }
      ?_ rfl
    · intro x hx
      simp only [List.mem_cons, List.not_mem_nil, or_false] at hx
      subst hx
      rfl
    · rw [htr]
      exact List.mem_singleton.mpr rfl
  · refine h.2 { connected := true, records := [] }
      [{ openPositions :=
           [{ id := "a", quantity := 5, price := 1, value := 5, valueNonempty := true }],
         totalValue := 5 },
       { openPositions := [], totalValue := 0 }] "a" ?_
    norm_num [runUpdates, handleStatusUpdate, processBuys, processSells, executeBuy,
      executeSell, retryDriver, buyTryBody, sellTryBody, isDuplicateTrade, hasSuccessRecord,
      initState, mkMap, insertPos, hasKey, hasId, baseResult, saveTrade, DB.insertTrade,
      Position.parsedValue, Position.storedSide, hasSellEntry,
      show ("a" : String) ≠ "" by decide]

theorem hasBuyEntry_of_success (tr : List TraceEntry) (pid : String)
    (h : hasBuySuccess tr pid = true) : hasBuyEntry tr pid = true := by
  unfold hasBuySuccess at h
  unfold hasBuyEntry
  rcases List.any_eq_true.mp h with ⟨e, he, hp⟩
  simp only [Bool.and_eq_true] at hp
  exact List.any_eq_true.mpr ⟨e, he, by simp [hp.1.1, hp.2]⟩

theorem handleStatus_absent_step (cfg : Config) (oracle : ℕ → BoundaryOutcome)
    (persistOk : Bool) (trader : String) (st : OrchState) (s : Status) (pid : String)
    (hex : hasId st.executed pid = false)
    (hwf : ∀ x ∈ st.lastPositions, x.2.id = x.1) :
    hasSellEntry (handleStatusUpdate cfg oracle persistOk trader st s).2 pid = false ∧
    (hasKey st.lastPositions pid = true →
      hasBuyEntry (handleStatusUpdate cfg oracle persistOk trader st s).2 pid = false ∧
      hasId (handleStatusUpdate cfg oracle persistOk trader st s).1.executed pid = false) := by
  constructor
  · unfold hasSellEntry
    refine List.any_eq_false.mpr ?_
    intro e he
    by_cases hside : e.side = Side.sell
    · by_cases hpid : (e.posId == pid) = true
      · have hguard := handleStatus_sell_guard cfg oracle persistOk trader st s hwf e he hside
        rw [beq_iff_eq.mp hpid] at hguard
        rw [hguard] at hex
        cases hex
      · simp [eq_false_of_ne_true hpid]
    · simp [hside]
  · intro hkey
    have hnobuy : hasBuyEntry (handleStatusUpdate cfg oracle persistOk trader st s).2
        pid = false := by
      unfold hasBuyEntry
      refine List.any_eq_false.mpr ?_
      intro e he
      by_cases hside : e.side = Side.buy
      · by_cases hpid : (e.posId == pid) = true
        · have hguard := (handleStatus_buy_guard cfg oracle persistOk trader st s e he hside).2
          rw [beq_iff_eq.mp hpid] at hguard
          rw [hguard] at hkey
          cases hkey
        · simp [eq_false_of_ne_true hpid]
      · simp [hside]
    refine ⟨hnobuy, ?_⟩
    cases hfin : hasId (handleStatusUpdate cfg oracle persistOk trader st s).1.executed pid
    · rfl
    · rcases handleStatus_executed cfg oracle persistOk trader st s pid hfin with h1 | h1
      · rw [h1] at hex
        cases hex
      · have := hasBuyEntry_of_success _ _ h1
        rw [this] at hnobuy
        cases hnobuy

theorem runUpdates_absent_inv (cfg : Config) (oracle : ℕ → BoundaryOutcome)
    (persistOk : Bool) (trader : String) (updates : List Status) :
    ∀ (st : OrchState) (pid : String),
      hasId st.executed pid = false →
      hasKey st.lastPositions pid = true →
      (∀ x ∈ st.lastPositions, x.2.id = x.1) →
      (∀ s ∈ updates, s.openPositions.any (fun p => p.id == pid) = true) →
      hasBuyEntry (runUpdates cfg oracle persistOk trader st updates).2 pid = false ∧
      hasSellEntry (runUpdates cfg oracle persistOk trader st updates).2 pid = false ∧
      hasId (runUpdates cfg oracle persistOk trader st updates).1.executed pid = false ∧
      hasKey (runUpdates cfg oracle persistOk trader st updates).1.lastPositions pid = true ∧
      (∀ x ∈ (runUpdates cfg oracle persistOk trader st updates).1.lastPositions,
        x.2.id = x.1) := by
  induction updates with
  | nil =>
    intro st pid hex hkey hwf hpres
    exact ⟨by simp [runUpdates, hasBuyEntry], by simp [runUpdates, hasSellEntry],
      hex, hkey, hwf⟩
  | cons s rest ih =>
    intro st pid hex hkey hwf hpres
    rcases handleStatus_absent_step cfg oracle persistOk trader st s pid hex hwf
      with ⟨hstep_sell, hstep⟩
    rcases hstep hkey with ⟨hstep_buy, hstep_ex⟩
    have hkey1 : hasKey (handleStatusUpdate cfg oracle persistOk trader st s).1.lastPositions
        pid = true := by
      rw [handleStatus_lastPositions, hasKey_mkMap]
      exact hpres s (List.mem_cons_self _ _)
    have hwf1 : ∀ x ∈ (handleStatusUpdate cfg oracle persistOk trader st s).1.lastPositions,
        x.2.id = x.1 := by
      rw [handleStatus_lastPositions]
      intro x hx
      exact (mkMap_entry_inv _ x hx).1
    rcases ih (handleStatusUpdate cfg oracle persistOk trader st s).1 pid hstep_ex hkey1 hwf1
      (fun s2 hs2 => hpres s2 (List.mem_cons_of_mem _ hs2)) with ⟨r1, r2, r3, r4, r5⟩
    simp only [runUpdates]
    refine ⟨?_, ?_, r3, r4, r5⟩
    · rw [show hasBuyEntry ((handleStatusUpdate cfg oracle persistOk trader st s).2 ++
          (runUpdates cfg oracle persistOk trader
            (handleStatusUpdate cfg oracle persistOk trader st s).1 rest).2) pid =
          (hasBuyEntry (handleStatusUpdate cfg oracle persistOk trader st s).2 pid ||
           hasBuyEntry (runUpdates cfg oracle persistOk trader
            (handleStatusUpdate cfg oracle persistOk trader st s).1 rest).2 pid)
        from by simp [hasBuyEntry, List.any_append]]
      rw [hstep_buy, r1]
      rfl
    · rw [hasSellEntry_append, hstep_sell, r2]
      rfl

/-- Claim C9, confirmed.  If a status update containing position `pid`
produces no successful buy for it (validation failure, duplicate skip or
exhausted retries) and `pid` was not in the executed set, then: the
identifier is nevertheless stored in the target-position map at the end of
the update; across any later updates in which the position stays present,
no buy for it is ever attempted again and it never enters the executed set;
and a subsequent update (in particular one where the position disappears)
attempts no sell for it. -/
theorem c9_failed_open_not_retried (cfg : Config) (oracle : ℕ → BoundaryOutcome)
    (persistOk : Bool) (trader : String) (st0 : OrchState) (s0 : Status)
    (rest : List Status) (s2 : Status) (pid : String)
    (hex : hasId st0.executed pid = false)
    (hpres0 : s0.openPositions.any (fun p => p.id == pid) = true)
    (hpres : ∀ s ∈ rest, s.openPositions.any (fun p => p.id == pid) = true)
    (hfail : hasBuySuccess (handleStatusUpdate cfg oracle persistOk trader st0 s0).2
      pid = false) :
    hasKey (handleStatusUpdate cfg oracle persistOk trader st0 s0).1.lastPositions
      pid = true ∧
    hasBuyEntry (runUpdates cfg oracle persistOk trader
      (handleStatusUpdate cfg oracle persistOk trader st0 s0).1 rest).2 pid = false ∧
    hasSellEntry (runUpdates cfg oracle persistOk trader
      (handleStatusUpdate cfg oracle persistOk trader st0 s0).1 rest).2 pid = false ∧
    hasId (runUpdates cfg oracle persistOk trader
      (handleStatusUpdate cfg oracle persistOk trader st0 s0).1 rest).1.executed pid = false ∧
    hasSellEntry (handleStatusUpdate cfg oracle persistOk trader
      (runUpdates cfg oracle persistOk trader
        (handleStatusUpdate cfg oracle persistOk trader st0 s0).1 rest).1 s2).2 pid = false := by
  have hkey1 : hasKey (handleStatusUpdate cfg oracle persistOk trader st0 s0).1.lastPositions
      pid = true := by
    rw [handleStatus_lastPositions, hasKey_mkMap]
    exact hpres0
  have hwf1 : ∀ x ∈ (handleStatusUpdate cfg oracle persistOk trader st0 s0).1.lastPositions,
      x.2.id = x.1 := by
    rw [handleStatus_lastPositions]
    intro x hx
    exact (mkMap_entry_inv _ x hx).1
  have hex1 : hasId (handleStatusUpdate cfg oracle persistOk trader st0 s0).1.executed
      pid = false := by
    cases hfin : hasId (handleStatusUpdate cfg oracle persistOk trader st0 s0).1.executed pid
    · rfl
    · rcases handleStatus_executed cfg oracle persistOk trader st0 s0 pid hfin with h1 | h1
      · rw [h1] at hex
        cases hex
      · rw [h1] at hfail
        cases hfail
  rcases runUpdates_absent_inv cfg oracle persistOk trader rest
    (handleStatusUpdate cfg oracle persistOk trader st0 s0).1 pid hex1 hkey1 hwf1 hpres
    with ⟨r1, r2, r3, r4, r5⟩
  exact ⟨hkey1, r1, r2, r3,
    (handleStatus_absent_step cfg oracle persistOk trader _ s2 pid r3 r5).1⟩

/-- Witness for `c9_failed_open_not_retried`: the buy fails as a duplicate
(prior success record in the store), the position stays present for one more
update, then disappears. -/
theorem c9_failed_open_not_retried_witness :
    hasKey (handleStatusUpdate
      { dryRun := false, positionSizeMultiplier := 1, maxPositionSize := 10000,
        maxTradeSize := 5000, minTradeSize := 1, maxRetryAttempts := 3, retryDelay := 1000 }
      (fun _ => BoundaryOutcome.ok "oid") true "t"
      (initState
        { connected := true,
          records := [{ positionId := "a", trader := "t", side := Side.buy, success := true }] })
      { openPositions :=
          [{ id := "a", quantity := 5, price := 1, value := 5, valueNonempty := true }],
        totalValue := 5 }).1.lastPositions "a" = true ∧
    hasBuyEntry (runUpdates
      { dryRun := false, positionSizeMultiplier := 1, maxPositionSize := 10000,
        maxTradeSize := 5000, minTradeSize := 1, maxRetryAttempts := 3, retryDelay := 1000 }
      (fun _ => BoundaryOutcome.ok "oid") true "t"
      (handleStatusUpdate
        { dryRun := false, positionSizeMultiplier := 1, maxPositionSize := 10000,
          maxTradeSize := 5000, minTradeSize := 1, maxRetryAttempts := 3, retryDelay := 1000 }
        (fun _ => BoundaryOutcome.ok "oid") true "t"
        (initState
          { connected := true,
            records :=
              [{ positionId := "a", trader := "t", side := Side.buy, success := true }] })
        { openPositions :=
            [{ id := "a", quantity := 5, price := 1, value := 5, valueNonempty := true }],
          totalValue := 5 }).1
      [{ openPositions :=
           [{ id := "a", quantity := 5, price := 1, value := 5, valueNonempty := true }],
         totalValue := 5 }]).2 "a" = false ∧
    hasId (runUpdates
      { dryRun := false, positionSizeMultiplier := 1, maxPositionSize := 10000,
        maxTradeSize := 5000, minTradeSize := 1, maxRetryAttempts := 3, retryDelay := 1000 }
      (fun _ => BoundaryOutcome.ok "oid") true "t"
      (handleStatusUpdate
        { dryRun := false, positionSizeMultiplier := 1, maxPositionSize := 10000,
          maxTradeSize := 5000, minTradeSize := 1, maxRetryAttempts := 3, retryDelay := 1000 }
        (fun _ => BoundaryOutcome.ok "oid") true "t"
        (initState
          { connected := true,
            records :=
              [{ positionId := "a", trader := "t", side := Side.buy, success := true }] })
        { openPositions :=
            [{ id := "a", quantity := 5, price := 1, value := 5, valueNonempty := true }],
          totalValue := 5 }).1
      [{ openPositions :=
           [{ id := "a", quantity := 5, price := 1, value := 5, valueNonempty := true }],
         totalValue := 5 }]).1.executed "a" = false ∧
    hasSellEntry (handleStatusUpdate
      { dryRun := false, positionSizeMultiplier := 1, maxPositionSize := 10000,
        maxTradeSize := 5000, minTradeSize := 1, maxRetryAttempts := 3, retryDelay := 1000 }
      (fun _ => BoundaryOutcome.ok "oid") true "t"
      (runUpdates
        { dryRun := false, positionSizeMultiplier := 1, maxPositionSize := 10000,
          maxTradeSize := 5000, minTradeSize := 1, maxRetryAttempts := 3, retryDelay := 1000 }
        (fun _ => BoundaryOutcome.ok "oid") true "t"
        (handleStatusUpdate
          { dryRun := false, positionSizeMultiplier := 1, maxPositionSize := 10000,
            maxTradeSize := 5000, minTradeSize := 1, maxRetryAttempts := 3, retryDelay := 1000 }
          (fun _ => BoundaryOutcome.ok "oid") true "t"
          (initState
            { connected := true,
              records :=
                [{ positionId := "a", trader := "t", side := Side.buy, success := true }] })
          { openPositions :=
              [{ id := "a", quantity := 5, price := 1, value := 5, valueNonempty := true }],
            totalValue := 5 }).1
        [{ openPositions :=
             [{ id := "a", quantity := 5, price := 1, value := 5, valueNonempty := true }],
           totalValue := 5 }]).1
      { openPositions := [], totalValue := 0 }).2 "a" = false := by
  have h := c9_failed_open_not_retried
    { dryRun := false, positionSizeMultiplier := 1, maxPositionSize := 10000,
      maxTradeSize := 5000, minTradeSize := 1, maxRetryAttempts := 3, retryDelay := 1000 }
    (fun _ => BoundaryOutcome.ok "oid") true "t"
    (initState
      { connected := true,
        records := [{ positionId := "a", trader := "t", side := Side.buy, success := true }] })
    { openPositions :=
        [{ id := "a", quantity := 5, price := 1, value := 5, valueNonempty := true }],
      totalValue := 5 }
    [{ openPositions :=
         [{ id := "a", quantity := 5, price := 1, value := 5, valueNonempty := true }],
       totalValue := 5 }]
    { openPositions := [], totalValue := 0 } "a"
    rfl (by decide)
    (by
      intro s hs
      simp only [List.mem_cons, List.not_mem_nil, or_false] at hs
      subst hs
      decide)
    (by
      norm_num [handleStatusUpdate, processBuys, processSells, executeBuy, retryDriver,
        buyTryBody, isDuplicateTrade, hasSuccessRecord, initState, mkMap, insertPos, hasKey,
        hasId, baseResult, hasBuySuccess])
  exact ⟨h.1, h.2.1, h.2.2.2.1, h.2.2.2.2⟩

/-- Claim C10, confirmed.  When the duplicate check finds a prior successful
buy, `executeBuy` returns `success = false` with the "Duplicate trade"
error (the result type has no distinct skipped outcome), so the orchestrator
counts the update as a failed trade — `totalTradesFailed` is incremented,
`totalTradesExecuted` is unchanged — and does not add the identifier to the
executed set. -/
theorem c10_duplicate_skip_failure (cfg : Config) (oracle : ℕ → BoundaryOutcome)
    (persistOk : Bool) (trader : String) (st : OrchState) (p : Position) (tv : ℚ)
    (hc : st.db.connected = true)
    (hrec : hasSuccessRecord st.db p.id trader Side.buy = true)
    (hlast : st.lastPositions = [])
    (hex : hasId st.executed p.id = false) :
    (handleStatusUpdate cfg oracle persistOk trader st
        { openPositions := [p], totalValue := tv }).2 =
      [{ side := Side.buy, posId := p.id, success := false,
         error := some ErrMsg.duplicateTrade, submissions := 0 }] ∧
    (handleStatusUpdate cfg oracle persistOk trader st
        { openPositions := [p], totalValue := tv }).1.totalTradesFailed =
      st.totalTradesFailed + 1 ∧
    (handleStatusUpdate cfg oracle persistOk trader st
        { openPositions := [p], totalValue := tv }).1.totalTradesExecuted =
      st.totalTradesExecuted ∧
    (handleStatusUpdate cfg oracle persistOk trader st
        { openPositions := [p], totalValue := tv }).1.executed = st.executed := by
  have hdup : isDuplicateTrade st.db p.id trader Side.buy = true := by
    simp [isDuplicateTrade, hc, hrec]
  have hbuy := executeBuy_dup cfg oracle persistOk trader p st.db st.oracleIdx hdup
  refine ⟨?_, ?_, ?_, ?_⟩ <;>
    simp [handleStatusUpdate, hlast, processBuys, processSells, mkMap, insertPos,
      hasKey, hex, hbuy, baseResult]

/-- Witness for `c10_duplicate_skip_failure` on a freshly initialised state
whose store already holds a buy success for position "b". -/
theorem c10_duplicate_skip_failure_witness :
    (handleStatusUpdate
        { dryRun := false, positionSizeMultiplier := 1, maxPositionSize := 10000,
          maxTradeSize := 5000, minTradeSize := 1, maxRetryAttempts := 3, retryDelay := 1000 }
        (fun _ => BoundaryOutcome.ok "oid") true "t2"
        (initState
          { connected := true,
            records :=
              [{ positionId := "b", trader := "t2", side := Side.buy, success := true }] })
        { openPositions :=
            [{ id := "b", quantity := 4, price := 1, value := 4, valueNonempty := true }],
          totalValue := 4 }).2 =
      [{ side := Side.buy, posId := "b", success := false,
         error := some ErrMsg.duplicateTrade, submissions := 0 }] ∧
    (handleStatusUpdate
        { dryRun := false, positionSizeMultiplier := 1, maxPositionSize := 10000,
          maxTradeSize := 5000, minTradeSize := 1, maxRetryAttempts := 3, retryDelay := 1000 }
        (fun _ => BoundaryOutcome.ok "oid") true "t2"
        (initState
          { connected := true,
            records :=
              [{ positionId := "b", trader := "t2", side := Side.buy, success := true }] })
        { openPositions :=
            [{ id := "b", quantity := 4, price := 1, value := 4, valueNonempty := true }],
          totalValue := 4 }).1.totalTradesFailed =
      (initState
        { connected := true,
          records :=
            [{ positionId := "b", trader := "t2", side := Side.buy, success := true }] }
        ).totalTradesFailed + 1 ∧
    (handleStatusUpdate
        { dryRun := false, positionSizeMultiplier := 1, maxPositionSize := 10000,
          maxTradeSize := 5000, minTradeSize := 1, maxRetryAttempts := 3, retryDelay := 1000 }
        (fun _ => BoundaryOutcome.ok "oid") true "t2"
        (initState
          { connected := true,
            records :=
              [{ positionId := "b", trader := "t2", side := Side.buy, success := true }] })
        { openPositions :=
            [{ id := "b", quantity := 4, price := 1, value := 4, valueNonempty := true }],
          totalValue := 4 }).1.totalTradesExecuted =
      (initState
        { connected := true,
          records :=
            [{ positionId := "b", trader := "t2", side := Side.buy, success := true }] }
        ).totalTradesExecuted ∧
    (handleStatusUpdate
        { dryRun := false, positionSizeMultiplier := 1, maxPositionSize := 10000,
          maxTradeSize := 5000, minTradeSize := 1, maxRetryAttempts := 3, retryDelay := 1000 }
        (fun _ => BoundaryOutcome.ok "oid") true "t2"
        (initState
          { connected := true,
            records :=
              [{ positionId := "b", trader := "t2", side := Side.buy, success := true }] })
        { openPositions :=
            [{ id := "b", quantity := 4, price := 1, value := 4, valueNonempty := true }],
          totalValue := 4 }).1.executed =
      (initState
        { connected := true,
          records :=
            [{ positionId := "b", trader := "t2", side := Side.buy, success := true }] }
        ).executed :=
  c10_duplicate_skip_failure
    { dryRun := false, positionSizeMultiplier := 1, maxPositionSize := 10000,
      maxTradeSize := 5000, minTradeSize := 1, maxRetryAttempts := 3, retryDelay := 1000 }
    (fun _ => BoundaryOutcome.ok "oid") true "t2"
    (initState
      { connected := true,
        records := [{ positionId := "b", trader := "t2", side := Side.buy, success := true }] })
    { id := "b", quantity := 4, price := 1, value := 4, valueNonempty := true } 4
    rfl (by decide) rfl rfl

end CopyBot
